import Mathlib

/-!
Verification of the pydvdread ctypes binding layer (dvdcss.py, dvdread.py,
dvdnav.py) against its natural-language specification.

The three Python modules are almost entirely declarative: ctypes struct
descriptors, function-wrapper attribute assignments and module-level
constants, executed once at import time.  The embedding below mirrors

  * the ctypes/SysV x86-64 layout computation (sizes, alignments, byte and
    bit offsets, gcc-style least-significant-bit-first bitfield packing
    with spill to the next storage unit), applied to the struct field
    lists transcribed from the source;
  * the top-level statement sequence of each module as an event trace
    (struct shells, deferred field patches, constants, symbol bindings,
    wrapper-attribute assignments), with the platform branch made
    explicit as a function of the os.name string;
  * the ctypes foreign-call result convention for the read-family
    wrappers (restype conversion, optional errcheck hook);
  * the declared callback (CFUNCTYPE) signatures of the stream and
    logger callback records.
-/

namespace DVDRead

/-! ## ctypes layout model (SysV x86-64, as used on the POSIX path) -/

/-- Round `n` up to the next multiple of `a`. -/
def alignUp (n a : Nat) : Nat := ((n + a - 1) / a) * a

/-- Primitive ctypes scalar types used by the three modules, with the
sizes they have on x86-64 Linux (the POSIX branch the modules load). -/
inductive Prim where
  | u8 | i8 | u16 | i16 | u32 | i32 | u64 | i64
  | cchar | cubyte | cint | cuint | clong | cuintq
  | csizeT | cssizeT | ctimeT | cvoidp
deriving Repr, DecidableEq

/-- Size in bytes of a primitive ctypes type on x86-64 Linux. -/
def Prim.size : Prim → Nat
  | .u8 | .i8 | .cchar | .cubyte => 1
  | .u16 | .i16 => 2
  | .u32 | .i32 | .cint | .cuint => 4
  | _ => 8

/-- On x86-64 Linux every primitive is aligned to its own size. -/
def Prim.align (p : Prim) : Nat := p.size

/-- Computed size and alignment of a complete type. -/
structure Layout where
  size : Nat
  align : Nat
deriving Repr, DecidableEq

/-- A field type as it appears in a ctypes `_fields_` list.  Nested
structures and unions enter through their already-computed `Layout`
(a pointer's pointee never affects layout, so pointees are kept only as
name annotations for traceability to the source). -/
inductive FieldTy where
  | prim (p : Prim)
  | ptr (pointee : String)
  | funPtr
  | bitfield (unit : Prim) (width : Nat)
  | nested (l : Layout)
  | arr (elem : FieldTy) (n : Nat)
deriving Repr

/-- Size and alignment of one field type.  A bitfield contributes the
storage-unit size of its declared type. -/
def FieldTy.sizeAlign : FieldTy → Layout
  | .prim p => ⟨p.size, p.align⟩
  | .ptr _ => ⟨8, 8⟩
  | .funPtr => ⟨8, 8⟩
  | .bitfield u _ => ⟨u.size, u.align⟩
  | .nested l => l
  | .arr e n => ⟨e.sizeAlign.size * n, e.sizeAlign.align⟩

/-- Allocation state while laying out a structure: current position in
bits from the start of the structure, and the maximal field alignment
seen so far. -/
structure AllocSt where
  bitPos : Nat
  maxAlign : Nat
deriving Repr, DecidableEq

/-- Place one field, returning its bit offset and the new state.

Non-bitfield fields are placed at the next byte boundary aligned for
their type.  A bitfield of storage-unit type `u` is placed at the next
free bit, unless the field would cross a `u`-unit boundary, in which
case it spills to the start of the next unit (the gcc convention, which
ctypes follows for same-typed bitfield runs on non-Windows targets). -/
def placeField (st : AllocSt) : FieldTy → Nat × AllocSt
  | .bitfield u w =>
      let ub := 8 * u.size
      let pos := if st.bitPos % ub + w > ub then alignUp st.bitPos ub else st.bitPos
      (pos, ⟨pos + w, max st.maxAlign u.align⟩)
  | f =>
      let l := f.sizeAlign
      let b := alignUp ((st.bitPos + 7) / 8) (max l.align 1)
      (8 * b, ⟨8 * (b + l.size), max st.maxAlign (max l.align 1)⟩)

/-- Lay out a field list, producing the bit offset of every field and
the final allocation state. -/
def allocFields : List (String × FieldTy) → AllocSt → List (String × Nat) × AllocSt
  | [], st => ([], st)
  | (n, f) :: rest, st =>
      let (pos, st2) := placeField st f
      let (tl, st3) := allocFields rest st2
      ((n, pos) :: tl, st3)

/-- Layout of a `ctypes.Structure` with the given field list. -/
def structLayout (fs : List (String × FieldTy)) : Layout :=
  let st := (allocFields fs ⟨0, 1⟩).2
  ⟨alignUp ((st.bitPos + 7) / 8) st.maxAlign, st.maxAlign⟩

/-- Layout of a `ctypes.Union` with the given field list. -/
def unionLayout (fs : List (String × FieldTy)) : Layout :=
  let a := fs.foldl (fun m f => max m f.2.sizeAlign.align) 1
  let s := fs.foldl (fun m f => max m f.2.sizeAlign.size) 0
  ⟨alignUp s a, a⟩

/-- Bit offset of every field of a structure, in declaration order. -/
def fieldBitOffsets (fs : List (String × FieldTy)) : List (String × Nat) :=
  (allocFields fs ⟨0, 1⟩).1

/-- Byte offset of a named (non-bitfield) field. -/
def byteOffset (fs : List (String × FieldTy)) (name : String) : Option Nat :=
  ((fieldBitOffsets fs).lookup name).map (· / 8)

/-- The bitfield members of a field list together with their computed
bit offset: (name, storage unit, bit offset, width). -/
def bitfieldTable (fs : List (String × FieldTy)) : List (String × Prim × Nat × Nat) :=
  let offs := fieldBitOffsets fs
  fs.filterMap fun (n, f) =>
    match f with
    | .bitfield u w => (offs.lookup n).map fun pos => (n, u, pos, w)
    | _ => none

/-- No bitfield in the table crosses a boundary of its declared storage
unit: each one lies entirely inside a single aligned unit. -/
def noUnitStraddle (t : List (String × Prim × Nat × Nat)) : Bool :=
  t.all fun (_, u, pos, w) => pos % (8 * u.size) + w ≤ 8 * u.size

/-- The bitfields occupy strictly increasing bit positions, each one
starting no earlier than the end of the previous one: the packing is
least-significant-bit first in declaration order with the declared
widths. -/
def lsbOrderedExact : List (String × Prim × Nat × Nat) → Bool
  | [] => true
  | [_] => true
  | (_, _, pos₁, w₁) :: (n₂, u₂, pos₂, w₂) :: rest =>
      decide (pos₁ + w₁ ≤ pos₂) && lsbOrderedExact ((n₂, u₂, pos₂, w₂) :: rest)

/-- The bitfields tile their storage contiguously: each field starts
exactly where the previous one ended (no spill gaps). -/
def contiguousBits : List (String × Prim × Nat × Nat) → Bool
  | [] => true
  | [_] => true
  | (_, _, pos₁, w₁) :: (n₂, u₂, pos₂, w₂) :: rest =>
      decide (pos₁ + w₁ = pos₂) && contiguousBits ((n₂, u₂, pos₂, w₂) :: rest)

/-! ## Struct descriptors transcribed from dvdread.py

Each `..._fields` list is the `_fields_` list of the corresponding
`ctypes.Structure` in the source, in declaration order.  Nested
structures appear through their computed layout. -/

/-- dvd_time_t (dvdread.py `_DVDTimeT`). -/
def _DVDTimeT_fields : List (String × FieldTy) := [
  ("hour", .prim .u8),
  ("minute", .prim .u8),
  ("second", .prim .u8),
  ("frame_u", .prim .u8)]

def _DVDTimeT_layout : Layout := structLayout _DVDTimeT_fields

/-- vm_cmd_t (dvdread.py `_VMCmdT`). -/
def _VMCmdT_fields : List (String × FieldTy) := [
  ("bytes", .arr (.prim .u8) 8)]

def _VMCmdT_layout : Layout := structLayout _VMCmdT_fields

/-- video_attr_t (dvdread.py `_VideoAttrT`): a run of c_ubyte bitfields. -/
def _VideoAttrT_fields : List (String × FieldTy) := [
  ("mpeg_version", .bitfield .cubyte 2),
  ("video_format", .bitfield .cubyte 2),
  ("display_aspect_ratio", .bitfield .cubyte 2),
  ("permitted_df", .bitfield .cubyte 2),
  ("line21_cc_1", .bitfield .cubyte 1),
  ("line21_cc_2", .bitfield .cubyte 1),
  ("unknown1", .bitfield .cubyte 1),
  ("bit_rate", .bitfield .cubyte 1),
  ("picture_size", .bitfield .cubyte 2),
  ("letterboxed", .bitfield .cubyte 1),
  ("film_mode", .bitfield .cubyte 1)]

def _VideoAttrT_layout : Layout := structLayout _VideoAttrT_fields

/-- karaoke sub-struct of audio_attr_t app_info (dvdread.py `_Karaoke`). -/
def _Karaoke_fields : List (String × FieldTy) := [
  ("unknown4", .bitfield .cubyte 1),
  ("channel_assignment", .bitfield .cubyte 3),
  ("version", .bitfield .cubyte 2),
  ("mc_intro", .bitfield .cubyte 1),
  ("mode", .bitfield .cubyte 1)]

def _Karaoke_layout : Layout := structLayout _Karaoke_fields

/-- surround sub-struct of audio_attr_t app_info (dvdread.py `_Surround`). -/
def _Surround_fields : List (String × FieldTy) := [
  ("unknown5", .bitfield .cubyte 4),
  ("dolby_encoded", .bitfield .cubyte 1),
  ("unknown6", .bitfield .cubyte 3)]

def _Surround_layout : Layout := structLayout _Surround_fields

/-- app_info union of audio_attr_t (dvdread.py `_AppInfo`). -/
def _AppInfo_fields : List (String × FieldTy) := [
  ("karaoke", .nested _Karaoke_layout),
  ("surround", .nested _Surround_layout)]

def _AppInfo_layout : Layout := unionLayout _AppInfo_fields

/-- audio_attr_t (dvdread.py `_AudioAttrT`). -/
def _AudioAttrT_fields : List (String × FieldTy) := [
  ("audio_format", .bitfield .cubyte 3),
  ("multichannel_extension", .bitfield .cubyte 1),
  ("lang_type", .bitfield .cubyte 2),
  ("application_mode", .bitfield .cubyte 2),
  ("quantization", .bitfield .cubyte 2),
  ("sample_frequency", .bitfield .cubyte 2),
  ("unknown1", .bitfield .cubyte 1),
  ("channels", .bitfield .cubyte 3),
  ("lang_code", .prim .u16),
  ("lang_extension", .prim .u8),
  ("code_extension", .prim .u8),
  ("unknown3", .prim .u8),
  ("app_info", .nested _AppInfo_layout)]

def _AudioAttrT_layout : Layout := structLayout _AudioAttrT_fields

/-- multichannel_ext_t (dvdread.py `_MultichannelExtT`). -/
def _MultichannelExtT_fields : List (String × FieldTy) := [
  ("zero1", .bitfield .cubyte 7),
  ("ach0_gme", .bitfield .cubyte 1),
  ("zero2", .bitfield .cubyte 7),
  ("ach1_gme", .bitfield .cubyte 1),
  ("zero3", .bitfield .cubyte 4),
  ("ach2_gv1e", .bitfield .cubyte 1),
  ("ach2_gv2e", .bitfield .cubyte 1),
  ("ach2_gm1e", .bitfield .cubyte 1),
  ("ach2_gm2e", .bitfield .cubyte 1),
  ("zero4", .bitfield .cubyte 4),
  ("ach3_gv1e", .bitfield .cubyte 1),
  ("ach3_gv2e", .bitfield .cubyte 1),
  ("ach3_gmAe", .bitfield .cubyte 1),
  ("ach3_se2e", .bitfield .cubyte 1),
  ("zero5", .bitfield .cubyte 4),
  ("ach4_gv1e", .bitfield .cubyte 1),
  ("ach4_gv2e", .bitfield .cubyte 1),
  ("ach4_gmBe", .bitfield .cubyte 1),
  ("ach4_seBe", .bitfield .cubyte 1),
  ("zero6", .arr (.prim .u8) 19)]

def _MultichannelExtT_layout : Layout := structLayout _MultichannelExtT_fields

/-- subp_attr_t (dvdread.py `_SubPAttrT`). -/
def _SubPAttrT_fields : List (String × FieldTy) := [
  ("code_mode", .bitfield .cubyte 3),
  ("zero1", .bitfield .cubyte 3),
  ("type", .bitfield .cubyte 2),
  ("zero2", .prim .u8),
  ("lang_code", .prim .u16),
  ("lang_extension", .prim .u8),
  ("code_extension", .prim .u8)]

def _SubPAttrT_layout : Layout := structLayout _SubPAttrT_fields

/-- cell_playback_t (dvdread.py `_CellPlaybackT`). -/
def _CellPlaybackT_fields : List (String × FieldTy) := [
  ("block_mode", .bitfield .cubyte 2),
  ("block_type", .bitfield .cubyte 2),
  ("seamless_play", .bitfield .cubyte 1),
  ("interleaved", .bitfield .cubyte 1),
  ("stc_discontinuity", .bitfield .cubyte 1),
  ("seamless_angle", .bitfield .cubyte 1),
  ("zero_1", .bitfield .cubyte 1),
  ("playback_mode", .bitfield .cubyte 1),
  ("restricted", .bitfield .cubyte 1),
  ("cell_type", .bitfield .cubyte 5),
  ("still_time", .prim .u8),
  ("cell_cmd_nr", .prim .u8),
  ("playback_time", .nested _DVDTimeT_layout),
  ("first_sector", .prim .u32),
  ("first_ilvu_end_sector", .prim .u32),
  ("last_vobu_start_sector", .prim .u32),
  ("last_sector", .prim .u32)]

def _CellPlaybackT_layout : Layout := structLayout _CellPlaybackT_fields

/-- user_ops_t (dvdread.py `_UserOpsT`): 32 one-bit-or-wider c_ubyte
bitfields. -/
def _UserOpsT_fields : List (String × FieldTy) := [
  ("zero", .bitfield .cubyte 7),
  ("video_pres_mode_change", .bitfield .cubyte 1),
  ("karaoke_audio_pres_mode_change", .bitfield .cubyte 1),
  ("angle_change", .bitfield .cubyte 1),
  ("subpic_stream_change", .bitfield .cubyte 1),
  ("audio_stream_change", .bitfield .cubyte 1),
  ("pause_on", .bitfield .cubyte 1),
  ("still_off", .bitfield .cubyte 1),
  ("button_select_or_activate", .bitfield .cubyte 1),
  ("resume", .bitfield .cubyte 1),
  ("chapter_menu_call", .bitfield .cubyte 1),
  ("angle_menu_call", .bitfield .cubyte 1),
  ("audio_menu_call", .bitfield .cubyte 1),
  ("subpic_menu_call", .bitfield .cubyte 1),
  ("root_menu_call", .bitfield .cubyte 1),
  ("title_menu_call", .bitfield .cubyte 1),
  ("backward_scan", .bitfield .cubyte 1),
  ("forward_scan", .bitfield .cubyte 1),
  ("next_pg_search", .bitfield .cubyte 1),
  ("prev_or_top_pg_search", .bitfield .cubyte 1),
  ("time_or_chapter_search", .bitfield .cubyte 1),
  ("go_up", .bitfield .cubyte 1),
  ("stop", .bitfield .cubyte 1),
  ("title_play", .bitfield .cubyte 1),
  ("chapter_search_or_play", .bitfield .cubyte 1),
  ("title_or_time_play", .bitfield .cubyte 1)]

def _UserOpsT_layout : Layout := structLayout _UserOpsT_fields

/-- pgc_t (dvdread.py `_PGCT`). -/
def _PGCT_fields : List (String × FieldTy) := [
  ("zero_1", .prim .u16),
  ("nr_of_programs", .prim .u8),
  ("nr_of_cells", .prim .u8),
  ("playback_time", .nested _DVDTimeT_layout),
  ("prohibited_ops", .nested _UserOpsT_layout),
  ("audio_control", .arr (.prim .u16) 8),
  ("subp_control", .arr (.prim .u32) 32),
  ("next_pgc_nr", .prim .u16),
  ("prev_pgc_nr", .prim .u16),
  ("goup_pgc_nr", .prim .u16),
  ("pg_playback_mode", .prim .u8),
  ("still_time", .prim .u8),
  ("palette", .arr (.prim .u32) 16),
  ("command_tbl_offset", .prim .u16),
  ("program_map_offset", .prim .u16),
  ("cell_playback_offset", .prim .u16),
  ("cell_position_offset", .prim .u16),
  ("command_tbl", .ptr "_PGCCommandTblT"),
  ("program_map", .ptr "_PGCProgramMapT"),
  ("cell_playback", .ptr "_CellPlaybackT"),
  ("cell_position", .ptr "_CellPositionT"),
  ("ref_count", .prim .cint)]

def _PGCT_layout : Layout := structLayout _PGCT_fields

/-- PGC_SIZE preprocessor constant (dvdread.py `_PGC_SIZE`). -/
def _PGC_SIZE : Nat := 236

/-- pgci_srp_t (dvdread.py `_PGCISrPT`): a scalar byte followed by a
byte of bitfields. -/
def _PGCISrPT_fields : List (String × FieldTy) := [
  ("entry_id", .prim .u8),
  ("block_mode", .bitfield .cubyte 2),
  ("block_type", .bitfield .cubyte 2),
  ("zero_1", .bitfield .cubyte 4),
  ("ptl_id_mask", .prim .u16),
  ("pgc_start_byte", .prim .u32),
  ("pgc", .ptr "_PGCT")]

def _PGCISrPT_layout : Layout := structLayout _PGCISrPT_fields

/-- playback_type_t (dvdread.py `_PlaybackTypeT`): eight one-bit
c_ubyte bitfields. -/
def _PlaybackTypeT_fields : List (String × FieldTy) := [
  ("zero_1", .bitfield .cubyte 1),
  ("multi_or_random_pgc_title", .bitfield .cubyte 1),
  ("jlc_exists_in_cell_cmd", .bitfield .cubyte 1),
  ("jlc_exists_in_prepost_cmd", .bitfield .cubyte 1),
  ("jlc_exists_in_button_cmd", .bitfield .cubyte 1),
  ("jlc_exists_in_tt_dom", .bitfield .cubyte 1),
  ("chapter_search_or_play", .bitfield .cubyte 1),
  ("title_or_time_play", .bitfield .cubyte 1)]

def _PlaybackTypeT_layout : Layout := structLayout _PlaybackTypeT_fields

/-- vts_attributes_t (dvdread.py `_VTSAttributesT`). -/
def _VTSAttributesT_fields : List (String × FieldTy) := [
  ("last_byte", .prim .u32),
  ("vts_cat", .prim .u32),
  ("vtsm_vobs_attr", .nested _VideoAttrT_layout),
  ("zero_1", .prim .u8),
  ("nr_of_vtsm_audio_streams", .prim .u8),
  ("vtsm_audio_attr", .nested _AudioAttrT_layout),
  ("zero_2", .arr (.nested _AudioAttrT_layout) 7),
  ("zero_3", .arr (.prim .u8) 16),
  ("zero_4", .prim .u8),
  ("nr_of_vtsm_subp_streams", .prim .u8),
  ("vtsm_subp_attr", .nested _SubPAttrT_layout),
  ("zero_5", .arr (.nested _SubPAttrT_layout) 27),
  ("zero_6", .arr (.prim .u8) 2),
  ("vtstt_vobs_video_attr", .nested _VideoAttrT_layout),
  ("zero_7", .prim .u8),
  ("nr_of_vtstt_audio_streams", .prim .u8),
  ("vtstt_audio_attr", .arr (.nested _AudioAttrT_layout) 8),
  ("zero_8", .arr (.prim .u8) 16),
  ("zero_9", .prim .u8),
  ("nr_of_vtstt_subp_streams", .prim .u8),
  ("vtstt_subp_attr", .arr (.nested _SubPAttrT_layout) 32)]

def _VTSAttributesT_layout : Layout := structLayout _VTSAttributesT_fields

/-- VTS_ATTRIBUTES_SIZE preprocessor constant (dvdread.py
`_VTS_ATTRIBUTES_SIZE`). -/
def _VTS_ATTRIBUTES_SIZE : Nat := 542

/-- PCI_BYTES preprocessor constant (dvdread.py `_PCI_BYTES`,
written `int("3d4", 16)` in the source). -/
def _PCI_BYTES : Nat := 0x3d4

/-- DSI_BYTES preprocessor constant (dvdread.py `_DSI_BYTES`,
written `int("3fa", 16)` in the source). -/
def _DSI_BYTES : Nat := 0x3fa

/-- DVD_VIDEO_LB_LEN preprocessor constant (dvdread.py
`_DVD_VIDEO_LB_LEN`). -/
def _DVD_VIDEO_LB_LEN : Nat := 2048

/-- pci_gi_t (dvdread.py `_PCIGIT`). -/
def _PCIGIT_fields : List (String × FieldTy) := [
  ("nv_pck_lbn", .prim .u32),
  ("vobu_cat", .prim .u16),
  ("zero1", .prim .u16),
  ("vobu_uop_ctl", .nested _UserOpsT_layout),
  ("vobu_s_ptm", .prim .u32),
  ("vobu_e_ptm", .prim .u32),
  ("vobu_se_e_ptm", .prim .u32),
  ("e_eltm", .nested _DVDTimeT_layout),
  ("vobu_isrc", .arr (.prim .cchar) 32)]

def _PCIGIT_layout : Layout := structLayout _PCIGIT_fields

/-- nsml_agli_t (dvdread.py `_NSmlAglIT`). -/
def _NSmlAglIT_fields : List (String × FieldTy) := [
  ("nsml_agl_dsta", .arr (.prim .u32) 9)]

def _NSmlAglIT_layout : Layout := structLayout _NSmlAglIT_fields

/-- hl_gi_t (dvdread.py `_HLGIT`). -/
def _HLGIT_fields : List (String × FieldTy) := [
  ("hli_ss", .prim .u16),
  ("hli_s_ptm", .prim .u32),
  ("hli_e_ptm", .prim .u32),
  ("btn_se_e_ptm", .prim .u32),
  ("zero1", .bitfield .cubyte 2),
  ("btngr_ns", .bitfield .cubyte 2),
  ("zero2", .bitfield .cubyte 1),
  ("btngr1_dsp_ty", .bitfield .cubyte 3),
  ("zero3", .bitfield .cubyte 1),
  ("btngr2_dsp_ty", .bitfield .cubyte 3),
  ("zero4", .bitfield .cubyte 1),
  ("btngr3_dsp_ty", .bitfield .cubyte 3),
  ("btn_ofn", .prim .u8),
  ("btn_ns", .prim .u8),
  ("nsl_btn_ns", .prim .u8),
  ("zero5", .prim .u8),
  ("fosl_btnn", .prim .u8),
  ("foac_btnn", .prim .u8)]

def _HLGIT_layout : Layout := structLayout _HLGIT_fields

/-- btn_colit_t (dvdread.py `_BtnColITT`); the source field type is
`ctypes.c_uint32 * 3 * 2`. -/
def _BtnColITT_fields : List (String × FieldTy) := [
  ("btn_coli", .arr (.arr (.prim .u32) 3) 2)]

def _BtnColITT_layout : Layout := structLayout _BtnColITT_fields

/-- btni_t (dvdread.py `_BtnIT`): a run of c_uint bitfields followed by
an embedded vm_cmd_t. -/
def _BtnIT_fields : List (String × FieldTy) := [
  ("btn_coln", .bitfield .cuint 2),
  ("x_start", .bitfield .cuint 10),
  ("zero1", .bitfield .cuint 2),
  ("x_end", .bitfield .cuint 10),
  ("auto_action_mode", .bitfield .cuint 2),
  ("y_start", .bitfield .cuint 10),
  ("zero2", .bitfield .cuint 2),
  ("y_end", .bitfield .cuint 10),
  ("zero3", .bitfield .cuint 2),
  ("up", .bitfield .cuint 6),
  ("zero4", .bitfield .cuint 2),
  ("down", .bitfield .cuint 6),
  ("zero5", .bitfield .cuint 2),
  ("left", .bitfield .cuint 6),
  ("zero6", .bitfield .cuint 2),
  ("right", .bitfield .cuint 6),
  ("cmd", .nested _VMCmdT_layout)]

def _BtnIT_layout : Layout := structLayout _BtnIT_fields

/-- hli_t (dvdread.py `_HLIT`). -/
def _HLIT_fields : List (String × FieldTy) := [
  ("hl_gi", .nested _HLGIT_layout),
  ("btn_colit", .nested _BtnColITT_layout),
  ("btnit", .arr (.nested _BtnIT_layout) 36)]

def _HLIT_layout : Layout := structLayout _HLIT_fields

/-- pci_t (dvdread.py `_PCIT`). -/
def _PCIT_fields : List (String × FieldTy) := [
  ("pci_gi", .nested _PCIGIT_layout),
  ("nsml_agli", .nested _NSmlAglIT_layout),
  ("hli", .nested _HLIT_layout),
  ("zero1", .arr (.prim .u8) 189)]

def _PCIT_layout : Layout := structLayout _PCIT_fields

/-- dsi_gi_t (dvdread.py `_DSIGIT`). -/
def _DSIGIT_fields : List (String × FieldTy) := [
  ("nv_pck_scr", .prim .u32),
  ("nv_pck_lbn", .prim .u32),
  ("vobu_ea", .prim .u32),
  ("vobu_1stref_ea", .prim .u32),
  ("vobu_2ndref_ea", .prim .u32),
  ("vobu_3rdref_ea", .prim .u32),
  ("vobu_vob_idn", .prim .u16),
  ("zero1", .prim .u8),
  ("vobu_c_idn", .prim .u8),
  ("c_eltm", .nested _DVDTimeT_layout)]

def _DSIGIT_layout : Layout := structLayout _DSIGIT_fields

/-- vob_a sub-struct of sml_pbi_t (dvdread.py `_VOBA`). -/
def _VOBA_fields : List (String × FieldTy) := [
  ("stp_ptm1", .prim .u32),
  ("stp_ptm2", .prim .u32),
  ("gap_len1", .prim .u32),
  ("gap_len2", .prim .u32)]

def _VOBA_layout : Layout := structLayout _VOBA_fields

/-- sml_pbi_t (dvdread.py `_SmlPBIT`). -/
def _SmlPBIT_fields : List (String × FieldTy) := [
  ("category", .prim .u16),
  ("ilvu_ea", .prim .u32),
  ("ilvu_sa", .prim .u32),
  ("size", .prim .u16),
  ("vob_v_s_s_ptm", .prim .u32),
  ("vob_v_e_e_ptm", .prim .u32),
  ("vob_a", .arr (.nested _VOBA_layout) 8)]

def _SmlPBIT_layout : Layout := structLayout _SmlPBIT_fields

/-- sml_agl_data_t (dvdread.py `_SmlAglDataT`). -/
def _SmlAglDataT_fields : List (String × FieldTy) := [
  ("address", .prim .u32),
  ("size", .prim .u16)]

def _SmlAglDataT_layout : Layout := structLayout _SmlAglDataT_fields

/-- sml_agli_t (dvdread.py `_SmlAglIT`). -/
def _SmlAglIT_fields : List (String × FieldTy) := [
  ("data", .arr (.nested _SmlAglDataT_layout) 9)]

def _SmlAglIT_layout : Layout := structLayout _SmlAglIT_fields

/-- vobu_sri_t (dvdread.py `_VOBUSrIT`). -/
def _VOBUSrIT_fields : List (String × FieldTy) := [
  ("next_video", .prim .u32),
  ("fwda", .arr (.prim .u32) 19),
  ("next_vobu", .prim .u32),
  ("prev_vobu", .prim .u32),
  ("bwda", .arr (.prim .u32) 19),
  ("prev_video", .prim .u32)]

def _VOBUSrIT_layout : Layout := structLayout _VOBUSrIT_fields

/-- synci_t (dvdread.py `_SyncIT`). -/
def _SyncIT_fields : List (String × FieldTy) := [
  ("a_synca", .arr (.prim .u16) 8),
  ("sp_synca", .arr (.prim .u32) 32)]

def _SyncIT_layout : Layout := structLayout _SyncIT_fields

/-- dsi_t (dvdread.py `_DSIT`). -/
def _DSIT_fields : List (String × FieldTy) := [
  ("dsi_gi", .nested _DSIGIT_layout),
  ("sml_pbi", .nested _SmlPBIT_layout),
  ("sml_agli", .nested _SmlAglIT_layout),
  ("vobu_sri", .nested _VOBUSrIT_layout),
  ("synci", .nested _SyncIT_layout),
  ("zero1", .arr (.prim .u8) 471)]

def _DSIT_layout : Layout := structLayout _DSIT_fields

/-! ## Struct descriptors transcribed from dvdnav.py -/

/-- vm_position_s (dvdnav.py `_VMPositionS`; `_DVDDomainT` is
`ctypes.c_int`). -/
def _VMPositionS_fields : List (String × FieldTy) := [
  ("button", .prim .i16),
  ("vts", .prim .i32),
  ("domain", .prim .cint),
  ("spu_channel", .prim .i32),
  ("angle_channel", .prim .i32),
  ("audio_channel", .prim .i32),
  ("hop_channel", .prim .i32),
  ("title", .prim .i32),
  ("chapter", .prim .i32),
  ("cell", .prim .i32),
  ("cell_restart", .prim .i32),
  ("cell_start", .prim .i32),
  ("still", .prim .i32),
  ("block", .prim .i32)]

def _VMPositionS_layout : Layout := structLayout _VMPositionS_fields

/-- dvdnav_vobu_s (dvdnav.py `_DVDNavVOBUS`). -/
def _DVDNavVOBUS_fields : List (String × FieldTy) := [
  ("vobu_start", .prim .i32),
  ("vobu_length", .prim .i32),
  ("blockN", .prim .i32),
  ("vobu_next", .prim .i32)]

def _DVDNavVOBUS_layout : Layout := structLayout _DVDNavVOBUS_fields

/-- dvdnav_logger_cb (dvdnav.py `_DVDNavLoggerCB`): a single CFUNCTYPE
field. -/
def _DVDNavLoggerCB_fields : List (String × FieldTy) := [
  ("pf_log", .funPtr)]

def _DVDNavLoggerCB_layout : Layout := structLayout _DVDNavLoggerCB_fields

/-- MAX_ERR_LEN preprocessor constant (dvdnav.py `_MAX_ERR_LEN`). -/
def _MAX_ERR_LEN : Nat := 255

/-- dvdnav_s (dvdnav.py `_DVDNavS`), exactly as patched into the shell at
the bottom of dvdnav.py — including the name "spu_clut_changed" occurring
at two consecutive positions. -/
def _DVDNavS_fields : List (String × FieldTy) := [
  ("path", .ptr "c_char"),
  ("file", .ptr "_DVDFileT"),
  ("position_next", .nested _VMPositionS_layout),
  ("position_current", .nested _VMPositionS_layout),
  ("vobu", .nested _DVDNavVOBUS_layout),
  ("pci", .nested _PCIT_layout),
  ("dsi", .nested _DSIT_layout),
  ("last_cmd_nav_lbn", .prim .u32),
  ("skip_still", .prim .cint),
  ("sync_wait", .prim .cint),
  ("sync_wait_skip", .prim .cint),
  ("spu_clut_changed", .prim .cint),
  ("spu_clut_changed", .prim .cint),
  ("started", .prim .cint),
  ("use_read_ahead", .prim .cint),
  ("pgc_based", .prim .cint),
  ("cur_cell_time", .prim .cint),
  ("vm", .ptr "_VMT"),
  ("vm_lock", .prim .cvoidp),
  ("priv", .prim .cvoidp),
  ("logcb", .nested _DVDNavLoggerCB_layout),
  ("cache", .ptr "_ReadCacheT"),
  ("err_str", .arr (.prim .cchar) _MAX_ERR_LEN)]

/-- The same field list with "spu_clut_changed" declared once — the layout
the claim compares against (this variant follows the claim text, not the
source, which declares the name twice). -/
def _DVDNavS_fields_single : List (String × FieldTy) := [
  ("path", .ptr "c_char"),
  ("file", .ptr "_DVDFileT"),
  ("position_next", .nested _VMPositionS_layout),
  ("position_current", .nested _VMPositionS_layout),
  ("vobu", .nested _DVDNavVOBUS_layout),
  ("pci", .nested _PCIT_layout),
  ("dsi", .nested _DSIT_layout),
  ("last_cmd_nav_lbn", .prim .u32),
  ("skip_still", .prim .cint),
  ("sync_wait", .prim .cint),
  ("sync_wait_skip", .prim .cint),
  ("spu_clut_changed", .prim .cint),
  ("started", .prim .cint),
  ("use_read_ahead", .prim .cint),
  ("pgc_based", .prim .cint),
  ("cur_cell_time", .prim .cint),
  ("vm", .ptr "_VMT"),
  ("vm_lock", .prim .cvoidp),
  ("priv", .prim .cvoidp),
  ("logcb", .nested _DVDNavLoggerCB_layout),
  ("cache", .ptr "_ReadCacheT"),
  ("err_str", .arr (.prim .cchar) _MAX_ERR_LEN)]

/-! ## Module-level event traces

Each Python module executes a sequence of top-level statements exactly
once, at first import.  The traces below list those statements as
events, in source order: numeric constants, type aliases, structure
definitions (with fields in the class body), structure shells (class
body with no `_fields_`), deferred field patches (`X._fields_ = [...]`,
recorded with the type names the patch references), in-place appends to
an already-assigned field list, wrapper symbol bindings and
wrapper-attribute assignments.  `assertSize` and `callNative` events are
part of the vocabulary so that their absence from the traces is a
statement about the source, not about the model. -/

inductive ModEvent where
  | defConst (name : String) (value : Nat)
  | defAlias (name : String)
  | defStruct (name : String)
  | shellStruct (name : String)
  | setFields (name : String) (refs : List String)
  | appendFields (name : String)
  | setFuncAttr (func : String) (attr : String)
  | bindSymbol (name : String) (sym : String)
  | loadLibrary (lib : String)
  | assertSize (structName : String) (value : Nat)
  | callNative (sym : String)
deriving Repr, DecidableEq

/-- The events of dvdcss.py executed before the os.name branch. -/
def dvdcssPreEvents : List ModEvent := [.defAlias "_POSIX_DVDCSS_LIB"]

/-- The events of dvdread.py executed before its os.name branch (not
counting the import of dvdcss, which is handled separately). -/
def dvdreadPreEvents : List ModEvent := [
  .defAlias "_POSIX_DVDREAD_LIB",
  .defAlias "_WIN_VLCCORE_LIB",
  .defAlias "_WIN_DVDREAD_LIB"]

/-- The events of dvdnav.py executed before its os.name branch (not
counting the import of dvdread). -/
def dvdnavPreEvents : List ModEvent := [
  .defAlias "_POSIX_DVDNAV_LIB",
  .defAlias "_WIN_DVDNAV_LIB"]

def dvdcssPostEvents1 : List ModEvent := [
  .defConst "_PATH_MAX" 4096,
  .defStruct "_IOVec",
  .defConst "_DVD_KEY_SIZE" 5,
  .defAlias "_DVD_KEY",
  .shellStruct "_DVDTitle",
  .setFields "_DVDTitle" ["_DVDTitle", "_DVD_KEY"],
  .defStruct "_CSS",
  .defAlias "_DVDCSSMethod",
  .shellStruct "_DVDCSSS",
  .defAlias "_DVDCSST",
  .defStruct "_DVDCSSStreamCB",
  .bindSymbol "dvdcss_open" "dvdcss_open",
  .setFuncAttr "dvdcss_open" "restype",
  .setFuncAttr "dvdcss_open" "argtypes",
  .bindSymbol "dvdcss_open_stream" "dvdcss_open_stream",
  .setFuncAttr "dvdcss_open_stream" "restype",
  .setFuncAttr "dvdcss_open_stream" "argtypes",
  .bindSymbol "dvdcss_close" "dvdcss_close",
  .setFuncAttr "dvdcss_close" "restype",
  .setFuncAttr "dvdcss_close" "argtypes",
  .bindSymbol "dvdcss_seek" "dvdcss_seek",
  .setFuncAttr "dvdcss_seek" "restype",
  .setFuncAttr "dvdcss_seek" "argtypes",
  .bindSymbol "dvdcss_read" "dvdcss_read",
  .setFuncAttr "dvdcss_read" "restype",
  .setFuncAttr "dvdcss_read" "argtypes",
  .bindSymbol "dvdcss_readv" "dvdcss_readv",
  .setFuncAttr "dvdcss_readv" "restype",
  .setFuncAttr "dvdcss_readv" "argtypes",
  .bindSymbol "dvdcss_error" "dvdcss_error",
  .setFuncAttr "dvdcss_error" "restype",
  .setFuncAttr "dvdcss_error" "argtypes",
  .bindSymbol "dvdcss_is_scrambled" "dvdcss_is_scrambled",
  .setFuncAttr "dvdcss_is_scrambled" "restype",
  .setFuncAttr "dvdcss_is_scrambled" "argtypes",
  .setFields "_DVDCSSS" ["_DVDCSSS", "_DVDCSST", "_IOVec", "_DVDCSSMethod", "_CSS", "_DVDTitle", "_PATH_MAX"],
  .appendFields "_DVDCSSS",
  .appendFields "_DVDCSSS"]

def dvdcssPostEvents : List ModEvent :=
  dvdcssPostEvents1

def dvdreadPostEvents1 : List ModEvent := [
  .defAlias "_OffT",
  .shellStruct "_DVDInputS",
  .defAlias "_DVDInputT",
  .defStruct "_DVDReaderDeviceS",
  .defConst "_TITLES_MAX" 9,
  .shellStruct "_DVDFileS",
  .shellStruct "_DVDReaderS",
  .defStruct "_GetBitsStateT",
  .bindSymbol "dvdread_getbits_init" "dvdread_getbits_init",
  .setFuncAttr "dvdread_getbits_init" "restype",
  .setFuncAttr "dvdread_getbits_init" "argtypes",
  .bindSymbol "dvdread_getbits" "dvdread_getbits",
  .setFuncAttr "dvdread_getbits" "restype",
  .setFuncAttr "dvdread_getbits" "argtypes",
  .defConst "_DVD_VIDEO_LB_LEN" 2048,
  .defConst "_MAX_UDF_FILE_NAME_LEN" 2048,
  .defAlias "_DVDReaderT",
  .defAlias "_DVDReaderDeviceT",
  .defAlias "_DVDFileT",
  .defStruct "_DVDReaderStreamCB",
  .defAlias "_DVDLoggerLevelT",
  .defStruct "_DVDLoggerCB",
  .defStruct "_DVDStatT",
  .bindSymbol "dvd_open" "DVDOpen",
  .setFuncAttr "dvd_open" "restype",
  .setFuncAttr "dvd_open" "argtypes",
  .bindSymbol "dvd_open_stream" "DVDOpenStream",
  .setFuncAttr "dvd_open_stream" "restype",
  .setFuncAttr "dvd_open_stream" "argtypes",
  .bindSymbol "dvd_open2" "DVDOpen2",
  .setFuncAttr "dvd_open2" "restype",
  .setFuncAttr "dvd_open2" "argtypes",
  .bindSymbol "dvd_open_stream2" "DVDOpenStream2",
  .setFuncAttr "dvd_open_stream2" "restype",
  .setFuncAttr "dvd_open_stream2" "argtypes",
  .bindSymbol "dvd_close" "DVDClose",
  .setFuncAttr "dvd_close" "restype",
  .setFuncAttr "dvd_close" "argtypes",
  .defAlias "_DVDReadDomainT",
  .bindSymbol "dvd_file_stat" "DVDFileStat",
  .setFuncAttr "dvd_file_stat" "restype",
  .setFuncAttr "dvd_file_stat" "argtypes",
  .bindSymbol "dvd_open_file" "DVDOpenFile",
  .setFuncAttr "dvd_open_file" "restype",
  .setFuncAttr "dvd_open_file" "argtypes",
  .bindSymbol "dvd_close_file" "DVDCloseFile",
  .setFuncAttr "dvd_close_file" "restype",
  .setFuncAttr "dvd_close_file" "argtypes",
  .bindSymbol "dvd_read_blocks" "DVDReadBlocks",
  .setFuncAttr "dvd_read_blocks" "restype"]

def dvdreadPostEvents2 : List ModEvent := [
  .setFuncAttr "dvd_read_blocks" "argtypes",
  .bindSymbol "dvd_file_seek" "DVDFileSeek",
  .setFuncAttr "dvd_file_seek" "restype",
  .setFuncAttr "dvd_file_seek" "argtypes",
  .bindSymbol "dvd_read_bytes" "DVDReadBytes",
  .setFuncAttr "dvd_read_bytes" "restype",
  .setFuncAttr "dvd_read_bytes" "argtypes",
  .bindSymbol "dvd_file_size" "DVDFileSize",
  .setFuncAttr "dvd_file_size" "restype",
  .setFuncAttr "dvd_file_size" "argtypes",
  .bindSymbol "dvd_disc_id" "DVDDiscID",
  .setFuncAttr "dvd_disc_id" "restype",
  .setFuncAttr "dvd_disc_id" "argtypes",
  .bindSymbol "dvd_volume_info" "DVDUDFVolumeInfo",
  .setFuncAttr "dvd_volume_info" "restype",
  .setFuncAttr "dvd_volume_info" "argtypes",
  .bindSymbol "dvd_file_seek_force" "DVDFileSeekForce",
  .setFuncAttr "dvd_file_seek_force" "restype",
  .setFuncAttr "dvd_file_seek_force" "argtypes",
  .bindSymbol "dvd_iso_volume_info" "DVDISOVolumeInfo",
  .setFuncAttr "dvd_iso_volume_info" "restype",
  .setFuncAttr "dvd_iso_volume_info" "argtypes",
  .bindSymbol "dvd_udf_cache_level" "DVDUDFCacheLevel",
  .setFuncAttr "dvd_udf_cache_level" "restype",
  .setFuncAttr "dvd_udf_cache_level" "argtypes",
  .bindSymbol "udf_find_file" "UDFFindFile",
  .setFuncAttr "udf_find_file" "restype",
  .setFuncAttr "udf_find_file" "argtypes",
  .bindSymbol "udf_get_volume_identifier" "UDFGetVolumeIdentifier",
  .setFuncAttr "udf_get_volume_identifier" "restype",
  .setFuncAttr "udf_get_volume_identifier" "argtypes",
  .bindSymbol "udf_get_volume_set_identifier" "UDFGetVolumeSetIdentifier",
  .setFuncAttr "udf_get_volume_set_identifier" "restype",
  .setFuncAttr "udf_get_volume_set_identifier" "argtypes",
  .defStruct "_DVDTimeT",
  .defStruct "_VMCmdT",
  .defConst "_COMMAND_DATA_SIZE" 8,
  .defStruct "_VideoAttrT",
  .defStruct "_AudioAttrT",
  .defStruct "_MultichannelExtT",
  .defStruct "_SubPAttrT",
  .defStruct "_PGCCommandTblT",
  .defConst "_PGC_COMMAND_TBL_SIZE" 8,
  .defAlias "_PGCProgramMapT",
  .defStruct "_CellPlaybackT",
  .defConst "_BLOCK_TYPE_NONE" 0,
  .defConst "_BLOCK_TYPE_ANGLE_BLOCK" 1,
  .defConst "_BLOCK_MODE_NOT_IN_BLOCK" 0,
  .defConst "_BLOCK_MODE_FIRST_CELL" 1,
  .defConst "_BLOCK_MODE_IN_BLOCK" 2]

def dvdreadPostEvents3 : List ModEvent := [
  .defConst "_BLOCK_MODE_LAST_CELL" 3,
  .defStruct "_CellPositionT",
  .defStruct "_UserOpsT",
  .defStruct "_PGCT",
  .defConst "_PGC_SIZE" 236,
  .defStruct "_PGCISrPT",
  .defConst "_PGCI_SRP_SIZE" 8,
  .defStruct "_PGCITT",
  .defConst "_PGCIT_SIZE" 8,
  .defStruct "_PGCILUT",
  .defConst "_PGCI_LU_SIZE" 8,
  .defStruct "_PGCIUTT",
  .defConst "_PGCI_UT_SIZE" 8,
  .defStruct "_CellAdrT",
  .defStruct "_CAdTT",
  .defConst "_C_ADT_SIZE" 8,
  .defStruct "_VOBUAdMapT",
  .defConst "_VOBU_ADMAP_SIZE" 4,
  .defStruct "_VMGIMatT",
  .defStruct "_PlaybackTypeT",
  .defStruct "_TitleInfoT",
  .defStruct "_TtSrPTT",
  .defConst "_TT_SRPT_SIZE" 8,
  .defConst "_PTL_MAIT_NUM_LEVEL" 8,
  .defAlias "_PFLevelT",
  .defStruct "_PtlMaITCountryT",
  .defConst "_PTL_MAIT_COUNTRY_SIZE" 8,
  .defStruct "_PtlMaITT",
  .defConst "_PTL_MAIT_SIZE" 8,
  .defStruct "_VTSAttributesT",
  .defConst "_VTS_ATTRIBUTES_SIZE" 542,
  .defConst "_VTS_ATTRIBUTES_MIN_SIZE" 356,
  .defStruct "_VTSAtrTT",
  .defConst "_VTS_ATRT_SIZE" 8,
  .defStruct "_TxtDtT",
  .defStruct "_TxtDtLUT",
  .defConst "_TXTDT_LU_SIZE" 8,
  .defStruct "_TxtDtMgIT",
  .defConst "_TXTDT_MGI_SIZE" 20,
  .defStruct "_VTSIMaTT",
  .defStruct "_PtTInfoT",
  .defStruct "_TTUT",
  .defStruct "_VTSPtTSrPTT",
  .defConst "_VTS_PTT_SRPT_SIZE" 8,
  .defAlias "_MapEntT",
  .defStruct "_VTSTMapT",
  .defConst "_VTS_TMAP_SIZE" 4,
  .defStruct "_VTSTMapTT",
  .defConst "_VTS_TMAPT_SIZE" 8,
  .defStruct "_IFOHandleT"]

def dvdreadPostEvents4 : List ModEvent := [
  .bindSymbol "ifo_print" "ifo_print",
  .setFuncAttr "ifo_print" "restype",
  .setFuncAttr "ifo_print" "argtypes",
  .bindSymbol "dvdread_print_time" "dvdread_print_time",
  .setFuncAttr "dvdread_print_time" "restype",
  .setFuncAttr "dvdread_print_time" "argtypes",
  .bindSymbol "ifo_open" "ifoOpen",
  .setFuncAttr "ifo_open" "restype",
  .setFuncAttr "ifo_open" "argtypes",
  .bindSymbol "ifo_open_vmgi" "ifoOpenVMGI",
  .setFuncAttr "ifo_open_vmgi" "restype",
  .setFuncAttr "ifo_open_vmgi" "argtypes",
  .bindSymbol "ifo_open_vtsi" "ifoOpenVTSI",
  .setFuncAttr "ifo_open_vtsi" "restype",
  .setFuncAttr "ifo_open_vtsi" "argtypes",
  .bindSymbol "ifo_close" "ifoClose",
  .setFuncAttr "ifo_close" "restype",
  .setFuncAttr "ifo_close" "argtypes",
  .bindSymbol "ifo_read_ptl_mait" "ifoRead_PTL_MAIT",
  .setFuncAttr "ifo_read_ptl_mait" "restype",
  .setFuncAttr "ifo_read_ptl_mait" "argtypes",
  .bindSymbol "ifo_read_vts_atrt" "ifoRead_VTS_ATRT",
  .setFuncAttr "ifo_read_vts_atrt" "restype",
  .setFuncAttr "ifo_read_vts_atrt" "argtypes",
  .bindSymbol "ifo_read_tt_srpt" "ifoRead_TT_SRPT",
  .setFuncAttr "ifo_read_tt_srpt" "restype",
  .setFuncAttr "ifo_read_tt_srpt" "argtypes",
  .bindSymbol "ifo_read_vts_ptt_srpt" "ifoRead_VTS_PTT_SRPT",
  .setFuncAttr "ifo_read_vts_ptt_srpt" "restype",
  .setFuncAttr "ifo_read_vts_ptt_srpt" "argtypes",
  .bindSymbol "ifo_read_fp_pgc" "ifoRead_FP_PGC",
  .setFuncAttr "ifo_read_fp_pgc" "restype",
  .setFuncAttr "ifo_read_fp_pgc" "argtypes",
  .bindSymbol "ifo_read_pgcit" "ifoRead_PGCIT",
  .setFuncAttr "ifo_read_pgcit" "restype",
  .setFuncAttr "ifo_read_pgcit" "argtypes",
  .bindSymbol "ifo_read_pgci_ut" "ifoRead_PGCI_UT",
  .setFuncAttr "ifo_read_pgci_ut" "restype",
  .setFuncAttr "ifo_read_pgci_ut" "argtypes",
  .bindSymbol "ifo_read_vts_tmapt" "ifoRead_VTS_TMAPT",
  .setFuncAttr "ifo_read_vts_tmapt" "restype",
  .setFuncAttr "ifo_read_vts_tmapt" "argtypes",
  .bindSymbol "ifo_read_c_adt" "ifoRead_C_ADT",
  .setFuncAttr "ifo_read_c_adt" "restype",
  .setFuncAttr "ifo_read_c_adt" "argtypes",
  .bindSymbol "ifo_read_title_c_adt" "ifoRead_TITLE_C_ADT",
  .setFuncAttr "ifo_read_title_c_adt" "restype",
  .setFuncAttr "ifo_read_title_c_adt" "argtypes",
  .bindSymbol "ifo_read_vobu_admap" "ifoRead_VOBU_ADMAP",
  .setFuncAttr "ifo_read_vobu_admap" "restype"]

def dvdreadPostEvents5 : List ModEvent := [
  .setFuncAttr "ifo_read_vobu_admap" "argtypes",
  .bindSymbol "ifo_read_title_vobu_admap" "ifoRead_TITLE_VOBU_ADMAP",
  .setFuncAttr "ifo_read_title_vobu_admap" "restype",
  .setFuncAttr "ifo_read_title_vobu_admap" "argtypes",
  .bindSymbol "ifo_read_txtdt_mgi" "ifoRead_TXTDT_MGI",
  .setFuncAttr "ifo_read_txtdt_mgi" "restype",
  .setFuncAttr "ifo_read_txtdt_mgi" "argtypes",
  .bindSymbol "ifo_free_ptl_mait" "ifoFree_PTL_MAIT",
  .setFuncAttr "ifo_free_ptl_mait" "restype",
  .setFuncAttr "ifo_free_ptl_mait" "argtypes",
  .bindSymbol "ifo_free_vts_atrt" "ifoFree_VTS_ATRT",
  .setFuncAttr "ifo_free_vts_atrt" "restype",
  .setFuncAttr "ifo_free_vts_atrt" "argtypes",
  .bindSymbol "ifo_free_tt_srpt" "ifoFree_TT_SRPT",
  .setFuncAttr "ifo_free_tt_srpt" "restype",
  .setFuncAttr "ifo_free_tt_srpt" "argtypes",
  .bindSymbol "ifo_free_vts_ptt_srpt" "ifoFree_VTS_PTT_SRPT",
  .setFuncAttr "ifo_free_vts_ptt_srpt" "restype",
  .setFuncAttr "ifo_free_vts_ptt_srpt" "argtypes",
  .bindSymbol "ifo_free_fp_pgc" "ifoFree_FP_PGC",
  .setFuncAttr "ifo_free_fp_pgc" "restype",
  .setFuncAttr "ifo_free_fp_pgc" "argtypes",
  .bindSymbol "ifo_free_pgcit" "ifoFree_PGCIT",
  .setFuncAttr "ifo_free_pgcit" "restype",
  .setFuncAttr "ifo_free_pgcit" "argtypes",
  .bindSymbol "ifo_free_pgci_ut" "ifoFree_PGCI_UT",
  .setFuncAttr "ifo_free_pgci_ut" "restype",
  .setFuncAttr "ifo_free_pgci_ut" "argtypes",
  .bindSymbol "ifo_free_vts_tmapt" "ifoFree_VTS_TMAPT",
  .setFuncAttr "ifo_free_vts_tmapt" "restype",
  .setFuncAttr "ifo_free_vts_tmapt" "argtypes",
  .bindSymbol "ifo_free_c_adt" "ifoFree_C_ADT",
  .setFuncAttr "ifo_free_c_adt" "restype",
  .setFuncAttr "ifo_free_c_adt" "argtypes",
  .bindSymbol "ifo_free_title_c_adt" "ifoFree_TITLE_C_ADT",
  .setFuncAttr "ifo_free_title_c_adt" "restype",
  .setFuncAttr "ifo_free_title_c_adt" "argtypes",
  .bindSymbol "ifo_free_vobu_admap" "ifoFree_VOBU_ADMAP",
  .setFuncAttr "ifo_free_vobu_admap" "restype",
  .setFuncAttr "ifo_free_vobu_admap" "argtypes",
  .bindSymbol "ifo_free_title_vobu_admap" "ifoFree_TITLE_VOBU_ADMAP",
  .setFuncAttr "ifo_free_title_vobu_admap" "restype",
  .setFuncAttr "ifo_free_title_vobu_admap" "argtypes",
  .bindSymbol "ifo_free_txtdt_mgi" "ifoFree_TXTDT_MGI",
  .setFuncAttr "ifo_free_txtdt_mgi" "restype",
  .setFuncAttr "ifo_free_txtdt_mgi" "argtypes",
  .defConst "_PCI_BYTES" 980,
  .defConst "_DSI_BYTES" 1018,
  .defConst "_PS2_PCI_SUBSTREAM_ID" 0,
  .defConst "_PS2_DSI_SUBSTREAM_ID" 1]

def dvdreadPostEvents6 : List ModEvent := [
  .defConst "_DSI_START_BYTE" 1031,
  .defStruct "_PCIGIT",
  .defStruct "_NSmlAglIT",
  .defStruct "_HLGIT",
  .defStruct "_BtnColITT",
  .defStruct "_BtnIT",
  .defStruct "_HLIT",
  .defStruct "_PCIT",
  .defStruct "_DSIGIT",
  .defStruct "_SmlPBIT",
  .defStruct "_SmlAglDataT",
  .defStruct "_SmlAglIT",
  .defStruct "_VOBUSrIT",
  .defConst "_SRI_END_OF_CELL" 1073741823,
  .defStruct "_SyncIT",
  .defStruct "_DSIT",
  .bindSymbol "nav_print_pci" "navPrint_PCI",
  .setFuncAttr "nav_print_pci" "restype",
  .setFuncAttr "nav_print_pci" "argtypes",
  .bindSymbol "nav_print_dsi" "navPrint_DSI",
  .setFuncAttr "nav_print_dsi" "restype",
  .setFuncAttr "nav_print_dsi" "argtypes",
  .bindSymbol "nav_read_pci" "navRead_PCI",
  .setFuncAttr "nav_read_pci" "restype",
  .setFuncAttr "nav_read_pci" "argtypes",
  .bindSymbol "nav_read_dsi" "navRead_DSI",
  .setFuncAttr "nav_read_dsi" "restype",
  .setFuncAttr "nav_read_dsi" "argtypes",
  .setFields "_DVDInputS" ["_DVDInputS", "_DVDCSST", "_DVDLoggerCB", "_OffT", "_DVDReaderStreamCB"],
  .setFields "_DVDFileS" ["_DVDFileS", "_DVDReaderT", "_TITLES_MAX", "_DVDInputT"],
  .setFields "_DVDReaderS" ["_DVDReaderS", "_DVDReaderDeviceT", "_DVDLoggerCB"]]

def dvdreadPostEvents : List ModEvent :=
  dvdreadPostEvents1 ++ dvdreadPostEvents2 ++ dvdreadPostEvents3 ++ dvdreadPostEvents4 ++ dvdreadPostEvents5 ++ dvdreadPostEvents6

def dvdnavPostEvents1 : List ModEvent := [
  .defAlias "_PThreadMutexT",
  .defConst "_READ_CACHE_CHUNKS" 10,
  .defStruct "_ReadCacheChunkS",
  .defAlias "_ReadCacheChunkT",
  .shellStruct "_ReadCacheS",
  .setFields "_ReadCacheS" ["_ReadCacheS", "_ReadCacheChunkT", "_READ_CACHE_CHUNKS", "_PThreadMutexT"],
  .defStruct "_RegistersT",
  .defAlias "_DVDMenuIDT",
  .defAlias "_DVDNavStreamTypeT",
  .defAlias "_DVDDomainT",
  .defStruct "_DVDNavHighlightAreaT",
  .defAlias "_DVDAudioFormatT",
  .defAlias "_DVDUOPT",
  .defAlias "_DVDParentalLevelT",
  .defAlias "_DVDLangIDT",
  .defAlias "_DVDCountryIDT",
  .defAlias "_DVDRegisterT",
  .defAlias "_DVDBoolT",
  .defAlias "_DVDGPRMArrayT",
  .defAlias "_DVDSPRMArrayT",
  .defAlias "_DVDStreamT",
  .defAlias "_DVDPTTT",
  .defAlias "_DVDTitleT",
  .defAlias "_DVDAngleT",
  .defStruct "_DVDTimecodeT",
  .defAlias "_DVDSubpictureStreamT",
  .defAlias "_DVDAudioStreamT",
  .defAlias "_DVDAudioAppModeT",
  .defAlias "_DVDAudioLangExtT",
  .defAlias "_DVDSubpictureLangExtT",
  .defAlias "_DVDKaraokeDownmixT",
  .defAlias "_DVDKaraokeDownmixMaskT",
  .defAlias "_DVDDisplayModeT",
  .shellStruct "_DVDAudioAttributesT",
  .defAlias "_DVDAudioSampleFreqT",
  .defAlias "_DVDAudioSampleQuantT",
  .defAlias "_DVDChannelNumberT",
  .setFields "_DVDAudioAttributesT" ["_DVDAudioAttributesT", "_DVDAudioAppModeT", "_DVDAudioFormatT", "_DVDLangIDT", "_DVDAudioLangExtT", "_DVDBoolT", "_DVDAudioSampleFreqT", "_DVDAudioSampleQuantT", "_DVDChannelNumberT"],
  .defAlias "_DVDSubpictureTypeT",
  .defAlias "_DVDSubpictureCodingT",
  .defAlias "_DVDSubpictureAttributesT",
  .shellStruct "_DVDVideoAttributesT",
  .defAlias "_DVDVideoCompressionT",
  .setFields "_DVDVideoAttributesT" ["_DVDVideoAttributesT", "_DVDBoolT", "_DVDVideoCompressionT"],
  .defStruct "_DVDStateT",
  .defStruct "_VMPositionS",
  .defAlias "_VMPositionT",
  .shellStruct "_VMT",
  .defConst "_MAX_ERR_LEN" 255,
  .defAlias "_ReadCacheT"]

def dvdnavPostEvents2 : List ModEvent := [
  .defStruct "_DVDNavVOBUS",
  .shellStruct "_DVDNavS",
  .defAlias "_DVDNavT",
  .defAlias "_DVDNavStatusT",
  .defAlias "_DVDNavStreamCB",
  .defAlias "_DVDNavLoggerLevelT",
  .shellStruct "_DVDNavLoggerCB",
  .setFields "_DVDNavLoggerCB" ["_DVDNavLoggerCB", "_DVDNavLoggerLevelT"],
  .bindSymbol "dvdnav_open" "dvdnav_open",
  .setFuncAttr "dvdnav_open" "restype",
  .setFuncAttr "dvdnav_open" "argtypes",
  .bindSymbol "dvdnav_open_stream" "dvdnav_open_stream",
  .setFuncAttr "dvdnav_open_stream" "restype",
  .setFuncAttr "dvdnav_open_stream" "argtypes",
  .bindSymbol "dvdnav_open2" "dvdnav_open2",
  .setFuncAttr "dvdnav_open2" "restype",
  .setFuncAttr "dvdnav_open2" "argtypes",
  .bindSymbol "dvdnav_open_stream2" "dvdnav_open_stream2",
  .setFuncAttr "dvdnav_open_stream2" "restype",
  .setFuncAttr "dvdnav_open_stream2" "argtypes",
  .bindSymbol "dvdnav_dup" "dvdnav_dup",
  .setFuncAttr "dvdnav_dup" "restype",
  .setFuncAttr "dvdnav_dup" "argtypes",
  .bindSymbol "dvdnav_free_dup" "dvdnav_free_dup",
  .setFuncAttr "dvdnav_free_dup" "restype",
  .setFuncAttr "dvdnav_free_dup" "argtypes",
  .bindSymbol "dvdnav_close" "dvdnav_close",
  .setFuncAttr "dvdnav_close" "restype",
  .setFuncAttr "dvdnav_close" "argtypes",
  .bindSymbol "dvdnav_reset" "dvdnav_reset",
  .setFuncAttr "dvdnav_reset" "restype",
  .setFuncAttr "dvdnav_reset" "argtypes",
  .bindSymbol "dvdnav_path" "dvdnav_path",
  .setFuncAttr "dvdnav_path" "restype",
  .setFuncAttr "dvdnav_path" "argtypes",
  .bindSymbol "dvdnav_err_to_string" "dvdnav_err_to_string",
  .setFuncAttr "dvdnav_err_to_string" "restype",
  .setFuncAttr "dvdnav_err_to_string" "argtypes",
  .bindSymbol "dvdnav_version" "dvdnav_version",
  .setFuncAttr "dvdnav_version" "restype",
  .bindSymbol "dvdnav_set_region_mask" "dvdnav_set_region_mask",
  .setFuncAttr "dvdnav_set_region_mask" "restype",
  .setFuncAttr "dvdnav_set_region_mask" "argtypes",
  .bindSymbol "dvdnav_get_region_mask" "dvdnav_get_region_mask",
  .setFuncAttr "dvdnav_get_region_mask" "restype",
  .setFuncAttr "dvdnav_get_region_mask" "argtypes",
  .defAlias "DVDNavVOBUT",
  .bindSymbol "dvdnav_set_readahead_flag" "dvdnav_set_readahead_flag",
  .setFuncAttr "dvdnav_set_readahead_flag" "restype",
  .setFuncAttr "dvdnav_set_readahead_flag" "argtypes"]

def dvdnavPostEvents3 : List ModEvent := [
  .bindSymbol "dvdnav_get_readahead_flag" "dvdnav_get_readahead_flag",
  .setFuncAttr "dvdnav_get_readahead_flag" "restype",
  .setFuncAttr "dvdnav_get_readahead_flag" "argtypes",
  .bindSymbol "dvdnav_set_pgc_positioning_flag" "dvdnav_set_PGC_positioning_flag",
  .setFuncAttr "dvdnav_set_pgc_positioning_flag" "restype",
  .setFuncAttr "dvdnav_set_pgc_positioning_flag" "argtypes",
  .bindSymbol "dvdnav_get_pgc_positioning_flag" "dvdnav_get_PGC_positioning_flag",
  .setFuncAttr "dvdnav_get_pgc_positioning_flag" "restype",
  .setFuncAttr "dvdnav_get_pgc_positioning_flag" "argtypes",
  .bindSymbol "dvdnav_get_next_block" "dvdnav_get_next_block",
  .setFuncAttr "dvdnav_get_next_block" "restype",
  .setFuncAttr "dvdnav_get_next_block" "argtypes",
  .bindSymbol "dvdnav_get_next_cache_block" "dvdnav_get_next_cache_block",
  .setFuncAttr "dvdnav_get_next_cache_block" "restype",
  .setFuncAttr "dvdnav_get_next_cache_block" "argtypes",
  .bindSymbol "dvdnav_free_cache_block" "dvdnav_free_cache_block",
  .setFuncAttr "dvdnav_free_cache_block" "restype",
  .setFuncAttr "dvdnav_free_cache_block" "argtypes",
  .bindSymbol "dvdnav_still_skip" "dvdnav_still_skip",
  .setFuncAttr "dvdnav_still_skip" "restype",
  .setFuncAttr "dvdnav_still_skip" "argtypes",
  .bindSymbol "dvdnav_wait_skip" "dvdnav_wait_skip",
  .setFuncAttr "dvdnav_wait_skip" "restype",
  .setFuncAttr "dvdnav_wait_skip" "argtypes",
  .bindSymbol "dvdnav_get_next_still_flag" "dvdnav_get_next_still_flag",
  .setFuncAttr "dvdnav_get_next_still_flag" "restype",
  .setFuncAttr "dvdnav_get_next_still_flag" "argtypes",
  .bindSymbol "dvdnav_stop" "dvdnav_stop",
  .setFuncAttr "dvdnav_stop" "restype",
  .setFuncAttr "dvdnav_stop" "argtypes",
  .bindSymbol "dvdnav_get_number_of_titles" "dvdnav_get_number_of_titles",
  .setFuncAttr "dvdnav_get_number_of_titles" "restype",
  .setFuncAttr "dvdnav_get_number_of_titles" "argtypes",
  .bindSymbol "dvdnav_get_number_of_parts" "dvdnav_get_number_of_parts",
  .setFuncAttr "dvdnav_get_number_of_parts" "restype",
  .setFuncAttr "dvdnav_get_number_of_parts" "argtypes",
  .bindSymbol "dvdnav_get_number_of_angles" "dvdnav_get_number_of_angles",
  .setFuncAttr "dvdnav_get_number_of_angles" "restype",
  .setFuncAttr "dvdnav_get_number_of_angles" "argtypes",
  .bindSymbol "dvdnav_title_play" "dvdnav_title_play",
  .setFuncAttr "dvdnav_title_play" "restype",
  .setFuncAttr "dvdnav_title_play" "argtypes",
  .bindSymbol "dvdnav_part_play" "dvdnav_part_play",
  .setFuncAttr "dvdnav_part_play" "restype",
  .setFuncAttr "dvdnav_part_play" "argtypes",
  .bindSymbol "dvdnav_program_play" "dvdnav_program_play",
  .setFuncAttr "dvdnav_program_play" "restype",
  .setFuncAttr "dvdnav_program_play" "argtypes",
  .bindSymbol "dvdnav_describe_title_chapters" "dvdnav_describe_title_chapters",
  .setFuncAttr "dvdnav_describe_title_chapters" "restype"]

def dvdnavPostEvents4 : List ModEvent := [
  .setFuncAttr "dvdnav_describe_title_chapters" "argtypes",
  .bindSymbol "dvdnav_part_play_auto_stop" "dvdnav_part_play_auto_stop",
  .setFuncAttr "dvdnav_part_play_auto_stop" "restype",
  .setFuncAttr "dvdnav_part_play_auto_stop" "argtypes",
  .bindSymbol "dvdnav_time_play" "dvdnav_time_play",
  .setFuncAttr "dvdnav_time_play" "restype",
  .setFuncAttr "dvdnav_time_play" "argtypes",
  .bindSymbol "dvdnav_menu_call" "dvdnav_menu_call",
  .setFuncAttr "dvdnav_menu_call" "restype",
  .setFuncAttr "dvdnav_menu_call" "argtypes",
  .bindSymbol "dvdnav_current_title_info" "dvdnav_current_title_info",
  .setFuncAttr "dvdnav_current_title_info" "restype",
  .setFuncAttr "dvdnav_current_title_info" "argtypes",
  .bindSymbol "dvdnav_current_title_program" "dvdnav_current_title_program",
  .setFuncAttr "dvdnav_current_title_program" "restype",
  .setFuncAttr "dvdnav_current_title_program" "argtypes",
  .bindSymbol "dvdnav_get_position_in_title" "dvdnav_get_position_in_title",
  .setFuncAttr "dvdnav_get_position_in_title" "restype",
  .setFuncAttr "dvdnav_get_position_in_title" "argtypes",
  .bindSymbol "dvdnav_part_search" "dvdnav_part_search",
  .setFuncAttr "dvdnav_part_search" "restype",
  .setFuncAttr "dvdnav_part_search" "argtypes",
  .bindSymbol "dvdnav_sector_search" "dvdnav_sector_search",
  .setFuncAttr "dvdnav_sector_search" "restype",
  .setFuncAttr "dvdnav_sector_search" "argtypes",
  .bindSymbol "dvdnav_get_current_time" "dvdnav_get_current_time",
  .setFuncAttr "dvdnav_get_current_time" "restype",
  .setFuncAttr "dvdnav_get_current_time" "argtypes",
  .bindSymbol "dvdnav_time_search" "dvdnav_time_search",
  .setFuncAttr "dvdnav_time_search" "restype",
  .setFuncAttr "dvdnav_time_search" "argtypes",
  .bindSymbol "dvdnav_jump_to_sector_by_time" "dvdnav_jump_to_sector_by_time",
  .setFuncAttr "dvdnav_jump_to_sector_by_time" "restype",
  .setFuncAttr "dvdnav_jump_to_sector_by_time" "argtypes",
  .bindSymbol "dvdnav_go_up" "dvdnav_go_up",
  .setFuncAttr "dvdnav_go_up" "restype",
  .setFuncAttr "dvdnav_go_up" "argtypes",
  .bindSymbol "dvdnav_prev_pg_search" "dvdnav_prev_pg_search",
  .setFuncAttr "dvdnav_prev_pg_search" "restype",
  .setFuncAttr "dvdnav_prev_pg_search" "argtypes",
  .bindSymbol "dvdnav_top_pg_search" "dvdnav_top_pg_search",
  .setFuncAttr "dvdnav_top_pg_search" "restype",
  .setFuncAttr "dvdnav_top_pg_search" "argtypes",
  .bindSymbol "dvdnav_next_pg_search" "dvdnav_next_pg_search",
  .setFuncAttr "dvdnav_next_pg_search" "restype",
  .setFuncAttr "dvdnav_next_pg_search" "argtypes",
  .bindSymbol "dvdnav_get_position" "dvdnav_get_position",
  .setFuncAttr "dvdnav_get_position" "restype",
  .setFuncAttr "dvdnav_get_position" "argtypes",
  .bindSymbol "dvdnav_get_current_highlight" "dvdnav_get_current_highlight"]

def dvdnavPostEvents5 : List ModEvent := [
  .setFuncAttr "dvdnav_get_current_highlight" "restype",
  .setFuncAttr "dvdnav_get_current_highlight" "argtypes",
  .bindSymbol "dvdnav_get_current_nav_pci" "dvdnav_get_current_nav_pci",
  .setFuncAttr "dvdnav_get_current_nav_pci" "restype",
  .setFuncAttr "dvdnav_get_current_nav_pci" "argtypes",
  .bindSymbol "dvdnav_get_current_nav_dsi" "dvdnav_get_current_nav_dsi",
  .setFuncAttr "dvdnav_get_current_nav_dsi" "restype",
  .setFuncAttr "dvdnav_get_current_nav_dsi" "argtypes",
  .bindSymbol "dvdnav_get_highlight_area" "dvdnav_get_highlight_area",
  .setFuncAttr "dvdnav_get_highlight_area" "restype",
  .setFuncAttr "dvdnav_get_highlight_area" "argtypes",
  .bindSymbol "dvdnav_upper_button_select" "dvdnav_upper_button_select",
  .setFuncAttr "dvdnav_upper_button_select" "restype",
  .setFuncAttr "dvdnav_upper_button_select" "argtypes",
  .bindSymbol "dvdnav_lower_button_select" "dvdnav_lower_button_select",
  .setFuncAttr "dvdnav_lower_button_select" "restype",
  .setFuncAttr "dvdnav_lower_button_select" "argtypes",
  .bindSymbol "dvdnav_right_button_select" "dvdnav_right_button_select",
  .setFuncAttr "dvdnav_right_button_select" "restype",
  .setFuncAttr "dvdnav_right_button_select" "argtypes",
  .bindSymbol "dvdnav_left_button_select" "dvdnav_left_button_select",
  .setFuncAttr "dvdnav_left_button_select" "restype",
  .setFuncAttr "dvdnav_left_button_select" "argtypes",
  .bindSymbol "dvdnav_button_activate" "dvdnav_button_activate",
  .setFuncAttr "dvdnav_button_activate" "restype",
  .setFuncAttr "dvdnav_button_activate" "argtypes",
  .bindSymbol "dvdnav_button_select" "dvdnav_button_select",
  .setFuncAttr "dvdnav_button_select" "restype",
  .setFuncAttr "dvdnav_button_select" "argtypes",
  .bindSymbol "dvdnav_button_select_and_activate" "dvdnav_button_select_and_activate",
  .setFuncAttr "dvdnav_button_select_and_activate" "restype",
  .setFuncAttr "dvdnav_button_select_and_activate" "argtypes",
  .bindSymbol "dvdnav_button_activate_cmd" "dvdnav_button_activate_cmd",
  .setFuncAttr "dvdnav_button_activate_cmd" "restype",
  .setFuncAttr "dvdnav_button_activate_cmd" "argtypes",
  .bindSymbol "dvdnav_mouse_select" "dvdnav_mouse_select",
  .setFuncAttr "dvdnav_mouse_select" "restype",
  .setFuncAttr "dvdnav_mouse_select" "argtypes",
  .bindSymbol "dvdnav_mouse_activate" "dvdnav_mouse_activate",
  .setFuncAttr "dvdnav_mouse_activate" "restype",
  .setFuncAttr "dvdnav_mouse_activate" "argtypes",
  .bindSymbol "dvdnav_menu_language_select" "dvdnav_menu_language_select",
  .setFuncAttr "dvdnav_menu_language_select" "restype",
  .setFuncAttr "dvdnav_menu_language_select" "argtypes",
  .bindSymbol "dvdnav_audio_language_select" "dvdnav_audio_language_select",
  .setFuncAttr "dvdnav_audio_language_select" "restype",
  .setFuncAttr "dvdnav_audio_language_select" "argtypes",
  .bindSymbol "dvdnav_spu_language_select" "dvdnav_spu_language_select",
  .setFuncAttr "dvdnav_spu_language_select" "restype",
  .setFuncAttr "dvdnav_spu_language_select" "argtypes"]

def dvdnavPostEvents6 : List ModEvent := [
  .bindSymbol "dvdnav_get_title_string" "dvdnav_get_title_string",
  .setFuncAttr "dvdnav_get_title_string" "restype",
  .setFuncAttr "dvdnav_get_title_string" "argtypes",
  .bindSymbol "dvdnav_get_serial_string" "dvdnav_get_serial_string",
  .setFuncAttr "dvdnav_get_serial_string" "restype",
  .setFuncAttr "dvdnav_get_serial_string" "argtypes",
  .bindSymbol "dvdnav_get_video_aspect" "dvdnav_get_video_aspect",
  .setFuncAttr "dvdnav_get_video_aspect" "restype",
  .setFuncAttr "dvdnav_get_video_aspect" "argtypes",
  .bindSymbol "dvdnav_get_video_resolution" "dvdnav_get_video_resolution",
  .setFuncAttr "dvdnav_get_video_resolution" "restype",
  .setFuncAttr "dvdnav_get_video_resolution" "argtypes",
  .bindSymbol "dvdnav_get_video_scale_permission" "dvdnav_get_video_scale_permission",
  .setFuncAttr "dvdnav_get_video_scale_permission" "restype",
  .setFuncAttr "dvdnav_get_video_scale_permission" "argtypes",
  .bindSymbol "dvdnav_audio_stream_to_lang" "dvdnav_audio_stream_to_lang",
  .setFuncAttr "dvdnav_audio_stream_to_lang" "restype",
  .setFuncAttr "dvdnav_audio_stream_to_lang" "argtypes",
  .bindSymbol "dvdnav_audio_stream_format" "dvdnav_audio_stream_format",
  .setFuncAttr "dvdnav_audio_stream_format" "restype",
  .setFuncAttr "dvdnav_audio_stream_format" "argtypes",
  .bindSymbol "dvdnav_audio_stream_channels" "dvdnav_audio_stream_channels",
  .setFuncAttr "dvdnav_audio_stream_channels" "restype",
  .setFuncAttr "dvdnav_audio_stream_channels" "argtypes",
  .bindSymbol "dvdnav_spu_stream_to_lang" "dvdnav_spu_stream_to_lang",
  .setFuncAttr "dvdnav_spu_stream_to_lang" "restype",
  .setFuncAttr "dvdnav_spu_stream_to_lang" "argtypes",
  .bindSymbol "dvdnav_get_audio_logical_stream" "dvdnav_get_audio_logical_stream",
  .setFuncAttr "dvdnav_get_audio_logical_stream" "restype",
  .setFuncAttr "dvdnav_get_audio_logical_stream" "argtypes",
  .bindSymbol "dvdnav_get_audio_attr" "dvdnav_get_audio_attr",
  .setFuncAttr "dvdnav_get_audio_attr" "restype",
  .setFuncAttr "dvdnav_get_audio_attr" "argtypes",
  .bindSymbol "dvdnav_get_spu_logical_stream" "dvdnav_get_spu_logical_stream",
  .setFuncAttr "dvdnav_get_spu_logical_stream" "restype",
  .setFuncAttr "dvdnav_get_spu_logical_stream" "argtypes",
  .bindSymbol "dvdnav_get_spu_attr" "dvdnav_get_spu_attr",
  .setFuncAttr "dvdnav_get_spu_attr" "restype",
  .setFuncAttr "dvdnav_get_spu_attr" "argtypes",
  .bindSymbol "dvdnav_get_active_audio_stream" "dvdnav_get_active_audio_stream",
  .setFuncAttr "dvdnav_get_active_audio_stream" "restype",
  .setFuncAttr "dvdnav_get_active_audio_stream" "argtypes",
  .bindSymbol "dvdnav_get_active_spu_stream" "dvdnav_get_active_spu_stream",
  .setFuncAttr "dvdnav_get_active_spu_stream" "restype",
  .setFuncAttr "dvdnav_get_active_spu_stream" "argtypes",
  .bindSymbol "dvdnav_get_restrictions" "dvdnav_get_restrictions",
  .setFuncAttr "dvdnav_get_restrictions" "restype",
  .setFuncAttr "dvdnav_get_restrictions" "argtypes",
  .bindSymbol "dvdnav_angle_change" "dvdnav_angle_change",
  .setFuncAttr "dvdnav_angle_change" "restype"]

def dvdnavPostEvents7 : List ModEvent := [
  .setFuncAttr "dvdnav_angle_change" "argtypes",
  .bindSymbol "dvdnav_get_angle_info" "dvdnav_get_angle_info",
  .setFuncAttr "dvdnav_get_angle_info" "restype",
  .setFuncAttr "dvdnav_get_angle_info" "argstype",
  .bindSymbol "dvdnav_is_domain_fp" "dvdnav_is_domain_fp",
  .setFuncAttr "dvdnav_is_domain_fp" "restype",
  .setFuncAttr "dvdnav_is_domain_fp" "argtypes",
  .bindSymbol "dvdnav_is_domain_vmgm" "dvdnav_is_domain_vmgm",
  .setFuncAttr "dvdnav_is_domain_vmgm" "restype",
  .setFuncAttr "dvdnav_is_domain_vmgm" "argtypes",
  .bindSymbol "dvdnav_is_domain_vtsm" "dvdnav_is_domain_vtsm",
  .setFuncAttr "dvdnav_is_domain_vtsm" "restype",
  .setFuncAttr "dvdnav_is_domain_vtsm" "argtypes",
  .bindSymbol "dvdnav_is_domain_vts" "dvdnav_is_domain_vts",
  .setFuncAttr "dvdnav_is_domain_vts" "restype",
  .setFuncAttr "dvdnav_is_domain_vts" "argtypes",
  .setFields "_VMT" ["_VMT", "_DVDNavLoggerCB", "_DVDNavStreamCB", "_DVDReaderT", "_DVDReaderStreamCB", "_IFOHandleT", "_DVDStateT"],
  .setFields "_DVDNavS" ["_DVDNavS", "_DVDFileT", "_VMPositionT", "DVDNavVOBUT", "_PCIT", "_DSIT", "_VMT", "_PThreadMutexT", "_DVDNavLoggerCB", "_ReadCacheT", "_MAX_ERR_LEN"],
  .defStruct "_DVDNavStillEventT",
  .defStruct "_DVDNavSPUStreamChangeEventT",
  .defStruct "_DVDNavAudioStreamChangeEventT",
  .defStruct "_DVDNavVTSChangeEventT",
  .defStruct "_DVDNavCellChangeEventT",
  .defStruct "_DVDNavHighlightEventT"]

def dvdnavPostEvents : List ModEvent :=
  dvdnavPostEvents1 ++ dvdnavPostEvents2 ++ dvdnavPostEvents3 ++ dvdnavPostEvents4 ++ dvdnavPostEvents5 ++ dvdnavPostEvents6 ++ dvdnavPostEvents7

/-! ## Platform selection and module initialization -/

/-- Name of the libdvdcss shared object on POSIX (dvdcss.py). -/
def _POSIX_DVDCSS_LIB : String := "libdvdcss.so.2"

/-- Name of the libdvdread shared object on POSIX (dvdread.py). -/
def _POSIX_DVDREAD_LIB : String := "libdvdread.so.8"

/-- Path template of the libvlccore DLL on Windows (dvdread.py; the
source passes it through os.path.expandvars, kept here unexpanded). -/
def _WIN_VLCCORE_LIB : String := "%PROGRAMFILES%/VideoLAN/VLC/libvlccore.dll"

/-- Path template of the libdvdread DLL on Windows (dvdread.py). -/
def _WIN_DVDREAD_LIB : String :=
  "%PROGRAMFILES%/VideoLAN/VLC/plugins/access/libdvdread_plugin.dll"

/-- Name of the libdvdnav shared object on POSIX (dvdnav.py). -/
def _POSIX_DVDNAV_LIB : String := "libdvdnav.so.4"

/-- Path template of the libdvdnav DLL on Windows (dvdnav.py). -/
def _WIN_DVDNAV_LIB : String :=
  "%PROGRAMFILES%/VideoLAN/VLC/plugins/access/libdvdnav_plugin.dll"

/-- An exception raised during module initialization. -/
inductive PyError where
  | unsupportedPlatform (osName : String)
  | winNotImplemented
deriving Repr, DecidableEq

/-- The os.name branch of dvdcss.py: POSIX loads the shared object,
Windows raises RuntimeError (not yet implemented), anything else raises
the unsupported-operating-system RuntimeError. -/
def dvdcssSelectLib (osName : String) : Except PyError String :=
  if osName = "posix" then .ok _POSIX_DVDCSS_LIB
  else if osName = "nt" then .error .winNotImplemented
  else .error (.unsupportedPlatform osName)

/-- The os.name branch of dvdread.py. -/
def dvdreadSelectLibs (osName : String) : Except PyError (List String) :=
  if osName = "posix" then .ok [_POSIX_DVDREAD_LIB]
  else if osName = "nt" then .ok [_WIN_VLCCORE_LIB, _WIN_DVDREAD_LIB]
  else .error (.unsupportedPlatform osName)

/-- The os.name branch of dvdnav.py. -/
def dvdnavSelectLib (osName : String) : Except PyError String :=
  if osName = "posix" then .ok _POSIX_DVDNAV_LIB
  else if osName = "nt" then .ok _WIN_DVDNAV_LIB
  else .error (.unsupportedPlatform osName)

/-- Initialization of the dvdcss module: the events executed, and the
exception (if any) that aborted it.  A raise stops execution, so on the
unsupported branch only the pre-branch events have run. -/
def dvdcssInit (osName : String) : List ModEvent × Option PyError :=
  match dvdcssSelectLib osName with
  | .ok lib => (dvdcssPreEvents ++ [.loadLibrary lib] ++ dvdcssPostEvents, none)
  | .error e => (dvdcssPreEvents, some e)

/-- Initialization of the dvdread module.  Its first statement imports
dvdcss, so dvdcss initialization runs (once) in front; an exception
there aborts dvdread initialization too. -/
def dvdreadInit (osName : String) : List ModEvent × Option PyError :=
  match dvdcssInit osName with
  | (es, some e) => (es, some e)
  | (es, none) =>
    match dvdreadSelectLibs osName with
    | .ok libs =>
        (es ++ dvdreadPreEvents ++ libs.map ModEvent.loadLibrary
            ++ dvdreadPostEvents, none)
    | .error e => (es ++ dvdreadPreEvents, some e)

/-- Initialization of the dvdnav module, which first imports dvdread. -/
def dvdnavInit (osName : String) : List ModEvent × Option PyError :=
  match dvdreadInit osName with
  | (es, some e) => (es, some e)
  | (es, none) =>
    match dvdnavSelectLib osName with
    | .ok lib =>
        (es ++ dvdnavPreEvents ++ [.loadLibrary lib] ++ dvdnavPostEvents, none)
    | .error e => (es ++ dvdnavPreEvents, some e)

/-- The full event trace of importing dvdcss on the POSIX path. -/
def dvdcssEvents : List ModEvent := (dvdcssInit "posix").1

/-- The full event trace of importing dvdread on the POSIX path (dvdcss
included). -/
def dvdreadEvents : List ModEvent := (dvdreadInit "posix").1

/-- The full event trace of importing dvdnav on the POSIX path (dvdcss
and dvdread included): everything the process has executed by the time
any native handle can be opened. -/
def dvdnavEvents : List ModEvent := (dvdnavInit "posix").1

/-! ## Trace predicates -/

/-- Is this event a wrapper symbol lookup on a loaded native library? -/
def ModEvent.isBindSymbol : ModEvent → Bool
  | .bindSymbol _ _ => true
  | _ => false

/-- Is this event a size assertion? -/
def ModEvent.isAssertSize : ModEvent → Bool
  | .assertSize _ _ => true
  | _ => false

/-- Is this event a call into a native entry point? -/
def ModEvent.isCallNative : ModEvent → Bool
  | .callNative _ => true
  | _ => false

/-- The names an event introduces into the module namespace. -/
def ModEvent.declaredNames : ModEvent → List String
  | .defConst n _ => [n]
  | .defAlias n => [n]
  | .defStruct n => [n]
  | .shellStruct n => [n]
  | .bindSymbol n _ => [n]
  | _ => []

/-- Scan a trace for field patches of struct `s`, given the names
already in scope: returns how many patches of `s` occur, and whether
each of them happened with `s` already declared and with every type its
field list references already declared. -/
def patchScanAux (s : String) : List ModEvent → List String → Nat × Bool
  | [], _ => (0, true)
  | .setFields n refs :: rest, seen =>
      let (c, ok) := patchScanAux s rest (n :: seen)
      if n = s then (c + 1, ok && seen.contains s && refs.all seen.contains)
      else (c, ok)
  | e :: rest, seen => patchScanAux s rest (e.declaredNames ++ seen)

/-- Struct `s` follows the shell-then-patch protocol in `evts`: it is
declared exactly once, as an empty shell, its field list is patched in
exactly once, the shell precedes the patch, and every type the patch
references is declared before the patch. -/
def shellThenPatchOnce (evts : List ModEvent) (s : String) : Bool :=
  let (c, ok) := patchScanAux s evts []
  c = 1 && ok && evts.countP (fun e => decide (e = ModEvent.shellStruct s)) = 1

/-- Between two consecutive bitfields, either the second starts exactly
where the first ended, or the second would have crossed a storage-unit
boundary there and instead starts at the next unit boundary — the
native compiler's spillover rule and nothing else. -/
def spilloverOnly : List (String × Prim × Nat × Nat) → Bool
  | (_, _, p₁, w₁) :: (n₂, u₂, p₂, w₂) :: rest =>
      (decide (p₂ = p₁ + w₁) ||
        (decide ((p₁ + w₁) % (8 * u₂.size) + w₂ > 8 * u₂.size) &&
         decide (p₂ = alignUp (p₁ + w₁) (8 * u₂.size)))) &&
      spilloverOnly ((n₂, u₂, p₂, w₂) :: rest)
  | _ => true

/-! ## Foreign-call result convention of the read-family wrappers

A ctypes function wrapper carries a restype (here always a signed
integer type), argtypes, and an optional errcheck hook which is the only
mechanism by which a wrapper could turn a native status into a Python
exception.  None of the three modules ever assigns errcheck (the traces
above contain no such attribute assignment), so the wrappers hand the
native return value back unchanged, reinterpreted through the signed
restype. -/

/-- The result-relevant attributes of one ctypes function wrapper:
the C symbol, the bit width of its signed integer restype, the declared
argtypes (as type names, for traceability), and the errcheck hook. -/
structure FuncWrapper where
  symbol : String
  restypeBits : Nat
  argtypes : List String
  errcheck : Option (Int → Except String Int)

/-- dvd_read_blocks (dvdread.py): DVDReadBlocks with restype
c_ssize_t (signed 64-bit) and no errcheck. -/
def dvd_read_blocks : FuncWrapper :=
  { symbol := "DVDReadBlocks"
    restypeBits := 64
    argtypes := ["POINTER(_DVDFileT)", "c_int", "c_size_t", "POINTER(c_char)"]
    errcheck := none }

/-- dvdcss_read (dvdcss.py): dvdcss_read with restype c_int (signed
32-bit) and no errcheck. -/
def dvdcss_read : FuncWrapper :=
  { symbol := "dvdcss_read"
    restypeBits := 32
    argtypes := ["_DVDCSST", "c_void_p", "c_int", "c_int"]
    errcheck := none }

/-- The register image of a signed native return value. -/
def toUnsigned (bits : Nat) (r : Int) : Nat := (r % ((2 : Int) ^ bits)).toNat

/-- How ctypes reads a register image through a signed integer
restype. -/
def toSigned (bits : Nat) (raw : Nat) : Int :=
  if raw % 2 ^ bits < 2 ^ (bits - 1) then ((raw % 2 ^ bits : Nat) : Int)
  else ((raw % 2 ^ bits : Nat) : Int) - (2 : Int) ^ bits

/-- One foreign call through a wrapper: the native function leaves the
register image `raw`; ctypes converts it through the restype and then
applies errcheck if (and only if) one was registered. -/
def ctypesCall (w : FuncWrapper) (raw : Nat) : Except String Int :=
  let v := toSigned w.restypeBits raw
  match w.errcheck with
  | none => .ok v
  | some f => f v

/-! ## Declared callback signatures (CFUNCTYPE) -/

/-- The ctypes types that appear in the CFUNCTYPE declarations of the
stream and logger callback records. -/
inductive CTypeRef where
  | ptrCInt | voidP | u64 | i64 | cint | charPtr
deriving Repr, DecidableEq

/-- A CFUNCTYPE signature: restype followed by argument types. -/
structure CFuncSig where
  restype : CTypeRef
  args : List CTypeRef
deriving Repr, DecidableEq

/-- pf_seek of dvdcss_stream_cb (dvdcss.py): CFUNCTYPE(POINTER(c_int),
c_void_p, c_uint64). -/
def dvdcss_pf_seek_sig : CFuncSig := ⟨.ptrCInt, [.voidP, .u64]⟩

/-- pf_seek of dvd_reader_stream_cb (dvdread.py): CFUNCTYPE(
POINTER(c_int), c_void_p, c_int64). -/
def reader_pf_seek_sig : CFuncSig := ⟨.ptrCInt, [.voidP, .i64]⟩

/-- pf_read of both stream records: CFUNCTYPE(POINTER(c_int), c_void_p,
c_void_p, c_int). -/
def stream_pf_read_sig : CFuncSig := ⟨.ptrCInt, [.voidP, .voidP, .cint]⟩

/-- pf_readv of dvdcss_stream_cb (dvdcss.py): CFUNCTYPE(POINTER(c_int),
c_void_p, c_void_p, c_int). -/
def dvdcss_pf_readv_sig : CFuncSig := ⟨.ptrCInt, [.voidP, .voidP, .cint]⟩

/-- pf_readv of dvd_reader_stream_cb (dvdread.py): CFUNCTYPE(
POINTER(c_int), c_void_p, c_void_p, c_int). -/
def reader_pf_readv_sig : CFuncSig := ⟨.ptrCInt, [.voidP, .voidP, .cint]⟩

/-- pf_log of dvd_logger_cb (dvdread.py): CFUNCTYPE(c_void_p, c_void_p,
_DVDLoggerLevelT = c_int, POINTER(c_char)). -/
def logger_pf_log_sig : CFuncSig := ⟨.voidP, [.voidP, .cint, .charPtr]⟩

/-- The _DVDCSSStreamCB record (dvdcss.py), field name with declared
signature. -/
def dvdcssStreamCB_sigs : List (String × CFuncSig) := [
  ("pf_seek", dvdcss_pf_seek_sig),
  ("pf_read", stream_pf_read_sig),
  ("pf_readv", dvdcss_pf_readv_sig)]

/-- The _DVDReaderStreamCB record (dvdread.py). -/
def dvdReaderStreamCB_sigs : List (String × CFuncSig) := [
  ("pf_seek", reader_pf_seek_sig),
  ("pf_read", stream_pf_read_sig),
  ("pf_readv", reader_pf_readv_sig)]

/-- The _DVDLoggerCB record (dvdread.py). -/
def dvdLoggerCB_sigs : List (String × CFuncSig) := [
  ("pf_log", logger_pf_log_sig)]

/-- No two signatures in the list coincide. -/
def allDistinctSigs : List CFuncSig → Bool
  | [] => true
  | x :: xs => xs.all (fun y => decide (y ≠ x)) && allDistinctSigs xs

/-! ## Opaque handle registry (spec-modelled)

Modelled from the spec: the Opaque Handle Registry of section 4.4 is
not part of the three low-level binding modules (their docstrings defer
to a higher-level DVD class that is not among these sources); only the
paired native open/close entry points they bind are.  The state machine
below follows the spec's transition rules: close is forwarded exactly
once from the Open state, a second close is rejected locally with
AlreadyClosed, and read/seek/query operations outside Open signal
InvalidHandleState locally, without a native call. -/

/-- Modelled from the spec: the per-handle lifecycle states. -/
inductive HandleState where
  | unopened | opened | closed
deriving Repr, DecidableEq

/-- Modelled from the spec: the registry's local error conditions. -/
inductive RegError where
  | alreadyClosed | invalidHandleState | openFailed
deriving Repr, DecidableEq

/-- Operations a host can request on an already-created handle. -/
inductive HandleOp where
  | close | read | seek | query
deriving Repr, DecidableEq

/-- The native entry point an operation forwards to when permitted. -/
def opNativeEntry : HandleOp → String
  | .close => "close"
  | .read => "read"
  | .seek => "seek"
  | .query => "query"

/-- Modelled from the spec: one registry step — the local outcome and
the list of native entry points actually invoked during the step. -/
def registryStep : HandleState → HandleOp → Except RegError HandleState × List String
  | .opened, .close => (.ok .closed, ["close"])
  | .closed, .close => (.error .alreadyClosed, [])
  | .unopened, .close => (.error .invalidHandleState, [])
  | .opened, op => (.ok .opened, [opNativeEntry op])
  | .unopened, _ => (.error .invalidHandleState, [])
  | .closed, _ => (.error .invalidHandleState, [])

/-- The argument-type-constraining attribute assignments of dvdnav.py:
every top-level `wrapper.argtypes = ...` or `wrapper.argstype = ...`
statement, as (wrapper name, attribute name). -/
def dvdnavArgAttrEvents : List (String × String) :=
  dvdnavPostEvents.filterMap fun e =>
    match e with
    | .setFuncAttr f a =>
        if a = "argtypes" || a = "argstype" then some (f, a) else none
    | _ => none

/-! ## Claim theorems -/

/-- C1, counterexample.  The claim states that every struct descriptor
with a published native size constant is guarded by a module-
initialization assertion comparing its computed ctypes size with that
constant.  This is false at the concrete instance `_PGCT` / `_PGC_SIZE`:
no size assertion for `_PGCT` against 236 occurs anywhere in the
statements executed when the dvdread module is imported. -/
theorem pgc_size_assertion_absent :
    ModEvent.assertSize "_PGCT" _PGC_SIZE ∉ dvdreadEvents := by decide

set_option maxRecDepth 40000 in
/-- C1, amended.  The modules define the published size constants as
plain constants but perform no size assertion at all: the statements
executed on import (dvdread, and the full dvdcss+dvdread+dvdnav chain)
contain zero assertions.  Moreover the computed in-memory ctypes sizes —
which include pointer fields — differ from the published on-disc
constants: `_PGCT` is 280 bytes against `_PGC_SIZE = 236`, and
`_VTSAttributesT` is 544 bytes against `_VTS_ATTRIBUTES_SIZE = 542`, so
the asserted equality would not even hold. -/
theorem size_constants_never_asserted :
    dvdreadEvents.countP ModEvent.isAssertSize = 0 ∧
    dvdnavEvents.countP ModEvent.isAssertSize = 0 ∧
    _PGCT_layout.size = 280 ∧ _PGC_SIZE = 236 ∧
    _VTSAttributesT_layout.size = 544 ∧ _VTS_ATTRIBUTES_SIZE = 542 := by decide

/-- C2, counterexample.  The claim states `_PCI_BYTES` (0x3d4) and
`_DSI_BYTES` (0x3fa) sum exactly to `_DVD_VIDEO_LB_LEN` (2048).  In
fact they sum to 1998, which is not 2048. -/
theorem nav_regions_do_not_fill_sector :
    _PCI_BYTES + _DSI_BYTES = 1998 ∧
    _PCI_BYTES + _DSI_BYTES ≠ _DVD_VIDEO_LB_LEN := by decide

/-- C2, amended.  The declared region sizes are 980 and 1018 bytes;
they sum to 1998, which is strictly less than the 2048-byte sector
(the remaining 50 bytes are packaging overhead of the navigation
packet, not part of either region). -/
theorem nav_region_sizes_sum_1998 :
    _PCI_BYTES = 980 ∧ _DSI_BYTES = 1018 ∧
    _PCI_BYTES + _DSI_BYTES = 1998 ∧
    _PCI_BYTES + _DSI_BYTES < _DVD_VIDEO_LB_LEN := by decide

/-- C3.  In the (spec-modelled) handle registry, a close on an Open
handle forwards exactly one native close call and moves to Closed; a
second close attempt is rejected locally with AlreadyClosed and no
native call is made; and any read/seek/query operation on an Unopened
or Closed handle signals InvalidHandleState locally, again with no
native call. -/
theorem handle_lifecycle_guard (op : HandleOp) (h : op ≠ HandleOp.close) :
    registryStep .opened .close = (.ok .closed, ["close"]) ∧
    registryStep .closed .close = (.error .alreadyClosed, []) ∧
    registryStep .unopened op = (.error .invalidHandleState, []) ∧
    registryStep .closed op = (.error .invalidHandleState, []) := by
  refine ⟨rfl, rfl, ?_, ?_⟩ <;> cases op <;> first | rfl | exact absurd rfl h

/-- Witness for C3 at the concrete operation `read`. -/
theorem handle_lifecycle_guard_witness :
    HandleOp.read ≠ HandleOp.close ∧
    (registryStep .opened .close = (.ok .closed, ["close"]) ∧
     registryStep .closed .close = (.error .alreadyClosed, []) ∧
     registryStep .unopened .read = (.error .invalidHandleState, []) ∧
     registryStep .closed .read = (.error .invalidHandleState, [])) :=
  ⟨by decide, handle_lifecycle_guard HandleOp.read (by decide)⟩

set_option maxRecDepth 40000 in
/-- C4.  Every self- or mutually-referential struct of the cited cycles
(_DVDTitle; _DVDCSSS; _DVDInputS/_DVDFileS/_DVDReaderS; _VMT/_DVDNavS)
follows the shell-then-patch protocol in the full import trace: it is
declared exactly once as an empty shell, its field list is patched in
exactly once (globally), the shell precedes the patch, every type the
patch references is declared before the patch runs, and module
initialization performs no native call, so the patches are all applied
before any handle can be opened. -/
theorem shell_then_patch_exactly_once :
    (["_DVDTitle", "_DVDCSSS", "_DVDInputS", "_DVDFileS", "_DVDReaderS",
      "_VMT", "_DVDNavS"].all (shellThenPatchOnce dvdnavEvents)) = true ∧
    dvdnavEvents.countP ModEvent.isCallNative = 0 := by decide

set_option maxRecDepth 40000 in
/-- C5.  For every bitfield-bearing struct descriptor of the three
modules — all twelve live in dvdread.py: _VideoAttrT, _AudioAttrT with
its karaoke and surround union members, _MultichannelExtT, _SubPAttrT,
_CellPlaybackT, _UserOpsT, _PGCISrPT, _PlaybackTypeT, _HLGIT and
_BtnIT (dvdcss.py and dvdnav.py declare no bitfields) — the computed
packing places the fields least-significant-bit first, in declaration
order, consuming exactly the declared widths (strictly increasing,
gap-free except at spill points), no field crosses a boundary of its
declared storage unit, and the only deviations from contiguous packing
are the native compiler's spillover rule at unit boundaries.  All
descriptors except the c_uint-unit _BtnIT additionally tile their
storage contiguously, with no spill gaps at all. -/
theorem bitfield_lsb_packing_no_straddle :
    ([_VideoAttrT_fields, _AudioAttrT_fields, _Karaoke_fields, _Surround_fields,
      _MultichannelExtT_fields, _SubPAttrT_fields, _CellPlaybackT_fields,
      _UserOpsT_fields, _PGCISrPT_fields, _PlaybackTypeT_fields,
      _HLGIT_fields, _BtnIT_fields].all
      fun fs =>
        noUnitStraddle (bitfieldTable fs) && lsbOrderedExact (bitfieldTable fs) &&
        spilloverOnly (bitfieldTable fs)) = true ∧
    ([_VideoAttrT_fields, _AudioAttrT_fields, _Karaoke_fields, _Surround_fields,
      _MultichannelExtT_fields, _SubPAttrT_fields, _CellPlaybackT_fields,
      _UserOpsT_fields, _PGCISrPT_fields, _PlaybackTypeT_fields,
      _HLGIT_fields].all
      fun fs => contiguousBits (bitfieldTable fs)) = true := by decide

/-- C6.  For any os.name other than "posix" and "nt", importing any of
the three binding modules stops at the platform branch with the
unsupported-operating-system error; the only statements executed by
then are the library-name constants, so no native library is loaded
and no symbol lookup is attempted. -/
theorem unsupported_platform_fails_fast (os : String)
    (h1 : os ≠ "posix") (h2 : os ≠ "nt") :
    dvdcssInit os = (dvdcssPreEvents, some (.unsupportedPlatform os)) ∧
    dvdreadInit os = (dvdcssPreEvents, some (.unsupportedPlatform os)) ∧
    dvdnavInit os = (dvdcssPreEvents, some (.unsupportedPlatform os)) ∧
    dvdcssPreEvents.countP ModEvent.isBindSymbol = 0 := by
  have hc : dvdcssSelectLib os = .error (.unsupportedPlatform os) := by
    unfold dvdcssSelectLib
    rw [if_neg h1, if_neg h2]
  have h3 : dvdcssInit os = (dvdcssPreEvents, some (.unsupportedPlatform os)) := by
    unfold dvdcssInit
    rw [hc]
  have h4 : dvdreadInit os = (dvdcssPreEvents, some (.unsupportedPlatform os)) := by
    unfold dvdreadInit
    rw [h3]
  have h5 : dvdnavInit os = (dvdcssPreEvents, some (.unsupportedPlatform os)) := by
    unfold dvdnavInit
    rw [h4]
  exact ⟨h3, h4, h5, by decide⟩

/-- Witness for C6 at the concrete platform identifier "java". -/
theorem unsupported_platform_fails_fast_witness :
    (("java" : String) ≠ "posix" ∧ ("java" : String) ≠ "nt") ∧
    (dvdcssInit "java" = (dvdcssPreEvents, some (.unsupportedPlatform "java")) ∧
     dvdreadInit "java" = (dvdcssPreEvents, some (.unsupportedPlatform "java")) ∧
     dvdnavInit "java" = (dvdcssPreEvents, some (.unsupportedPlatform "java")) ∧
     dvdcssPreEvents.countP ModEvent.isBindSymbol = 0) :=
  ⟨⟨by decide, by decide⟩,
   unsupported_platform_fails_fast "java" (by decide) (by decide)⟩

/-- ctypes reading a 64-bit register image back through a signed 64-bit
restype recovers exactly the signed value the native function
returned. -/
theorem toSigned64_roundtrip (r : Int) (h1 : -(2 ^ 63) ≤ r) (h2 : r < 2 ^ 63) :
    toSigned 64 (toUnsigned 64 r) = r := by
  unfold toSigned toUnsigned
  have h0 : (0 : Int) ≤ r % 2 ^ 64 := Int.emod_nonneg r (by norm_num)
  have hlt : r % 2 ^ 64 < 2 ^ 64 := Int.emod_lt_of_pos r (by norm_num)
  have hn : (r % 2 ^ 64).toNat < 2 ^ 64 := by omega
  rw [Nat.mod_eq_of_lt hn]
  split <;> omega

/-- The 32-bit analogue of `toSigned64_roundtrip`. -/
theorem toSigned32_roundtrip (r : Int) (h1 : -(2 ^ 31) ≤ r) (h2 : r < 2 ^ 31) :
    toSigned 32 (toUnsigned 32 r) = r := by
  unfold toSigned toUnsigned
  have h0 : (0 : Int) ≤ r % 2 ^ 32 := Int.emod_nonneg r (by norm_num)
  have hlt : r % 2 ^ 32 < 2 ^ 32 := Int.emod_lt_of_pos r (by norm_num)
  have hn : (r % 2 ^ 32).toNat < 2 ^ 32 := by omega
  rw [Nat.mod_eq_of_lt hn]
  split <;> omega

/-- C7.  A read-family call (dvd_read_blocks with its signed 64-bit
c_ssize_t restype, dvdcss_read with its signed 32-bit c_int restype)
returns whatever signed value the native function produced — bytes or
blocks read on success, a negative sentinel on failure — unchanged, as
an ordinary integer result; since neither wrapper registers an errcheck
hook, no native failure status is ever turned into an exception. -/
theorem read_family_passthrough (r s : Int)
    (hr1 : -(2 ^ 63) ≤ r) (hr2 : r < 2 ^ 63)
    (hs1 : -(2 ^ 31) ≤ s) (hs2 : s < 2 ^ 31) :
    ctypesCall dvd_read_blocks (toUnsigned 64 r) = .ok r ∧
    ctypesCall dvdcss_read (toUnsigned 32 s) = .ok s := by
  constructor
  · show Except.ok (toSigned 64 (toUnsigned 64 r)) = Except.ok r
    rw [toSigned64_roundtrip r hr1 hr2]
  · show Except.ok (toSigned 32 (toUnsigned 32 s)) = Except.ok s
    rw [toSigned32_roundtrip s hs1 hs2]

/-- Witness for C7 at the error sentinel -1 for both wrappers. -/
theorem read_family_passthrough_witness :
    (-(2 ^ 63) ≤ (-1 : Int) ∧ (-1 : Int) < 2 ^ 63 ∧
     -(2 ^ 31) ≤ (-1 : Int) ∧ (-1 : Int) < 2 ^ 31) ∧
    (ctypesCall dvd_read_blocks (toUnsigned 64 (-1)) = .ok (-1) ∧
     ctypesCall dvdcss_read (toUnsigned 32 (-1)) = .ok (-1)) :=
  ⟨⟨by decide, by decide, by decide, by decide⟩,
   read_family_passthrough (-1) (-1) (by decide) (by decide) (by decide) (by decide)⟩

/-- C8, counterexample.  The claim states the four declared
function-pointer signatures (seek, read, vectored-read, log) are
pairwise distinct.  They are not: in _DVDCSSStreamCB the pf_readv
signature is identical to the pf_read signature (both are
CFUNCTYPE(POINTER(c_int), c_void_p, c_void_p, c_int)), so the four
signatures of that record together with the logger fail pairwise
distinctness. -/
theorem read_readv_trampoline_shapes_coincide :
    allDistinctSigs (dvdcssStreamCB_sigs.map Prod.snd ++ dvdLoggerCB_sigs.map Prod.snd)
      = false ∧
    dvdcss_pf_readv_sig = stream_pf_read_sig := by decide

/-- C8, amended.  The seek signatures (both variants), the read
signature and the log signature are pairwise distinct trampoline
shapes, but the vectored-read entry is declared with the same signature
as plain read in both stream callback records (its iovec argument is
declared as a bare c_void_p). -/
theorem trampoline_shapes_distinct_except_readv :
    allDistinctSigs [dvdcss_pf_seek_sig, reader_pf_seek_sig, stream_pf_read_sig,
      logger_pf_log_sig] = true ∧
    dvdcss_pf_readv_sig = stream_pf_read_sig ∧
    reader_pf_readv_sig = stream_pf_read_sig := by decide

set_option maxRecDepth 40000 in
/-- C9.  Among the 85 argument-type-constraining attribute assignments
of dvdnav.py, every wrapper other than dvdnav_get_angle_info assigns
the real ctypes attribute `argtypes`; dvdnav_get_angle_info alone
assigns the misspelled attribute `argstype` and has no `argtypes`
assignment at all, so its declared argument types remain unset and its
arguments cross the foreign-call boundary unchecked. -/
theorem dvdnav_argtypes_attribute_usage :
    (dvdnavArgAttrEvents.all fun p =>
        p.1 = "dvdnav_get_angle_info" || p.2 = "argtypes") = true ∧
    ("dvdnav_get_angle_info", "argstype") ∈ dvdnavArgAttrEvents ∧
    ("dvdnav_get_angle_info", "argtypes") ∉ dvdnavArgAttrEvents ∧
    dvdnavArgAttrEvents.length = 85 := by decide

set_option maxRecDepth 40000 in
/-- C10, counterexample.  The claim states that the byte offset of
every field from `started` through `err_str` is one c_int (4 bytes)
larger than in a layout declaring "spu_clut_changed" once.  This fails
at the concrete field `vm`: its offset is 2280 bytes in both layouts,
not 2280 + 4 in the duplicated one. -/
theorem fields_after_spu_clut_not_all_shifted :
    byteOffset _DVDNavS_fields "vm" = some 2280 ∧
    byteOffset _DVDNavS_fields_single "vm" = some 2280 ∧
    ¬ (2280 = 2280 + 4) := by decide

set_option maxRecDepth 40000 in
/-- C10, amended.  The patched _DVDNavS field list contains
"spu_clut_changed" at two consecutive positions (indices 11 and 12),
so the layout allocates two c_int slots under that name (byte offsets
2256 and 2260).  The byte offsets of the four fields `started`,
`use_read_ahead`, `pgc_based` and `cur_cell_time` are exactly one c_int
(4 bytes) larger than in the single-declaration layout; from the
8-byte-aligned pointer field `vm` onwards (through `err_str`) the
offsets — and the total struct size — coincide in both layouts, the
alignment padding before `vm` absorbing the extra slot. -/
theorem duplicate_spu_clut_changed_layout :
    ((_DVDNavS_fields.map Prod.fst).drop 11).take 2 =
      ["spu_clut_changed", "spu_clut_changed"] ∧
    (fieldBitOffsets _DVDNavS_fields).countP
      (fun p => p.1 = "spu_clut_changed") = 2 ∧
    (fieldBitOffsets _DVDNavS_fields).lookup "spu_clut_changed" = some (8 * 2256) ∧
    byteOffset _DVDNavS_fields "started" = some 2264 ∧
    byteOffset _DVDNavS_fields_single "started" = some 2260 ∧
    byteOffset _DVDNavS_fields "use_read_ahead" = some 2268 ∧
    byteOffset _DVDNavS_fields_single "use_read_ahead" = some 2264 ∧
    byteOffset _DVDNavS_fields "pgc_based" = some 2272 ∧
    byteOffset _DVDNavS_fields_single "pgc_based" = some 2268 ∧
    byteOffset _DVDNavS_fields "cur_cell_time" = some 2276 ∧
    byteOffset _DVDNavS_fields_single "cur_cell_time" = some 2272 ∧
    byteOffset _DVDNavS_fields "vm" = byteOffset _DVDNavS_fields_single "vm" ∧
    byteOffset _DVDNavS_fields "vm_lock" = byteOffset _DVDNavS_fields_single "vm_lock" ∧
    byteOffset _DVDNavS_fields "priv" = byteOffset _DVDNavS_fields_single "priv" ∧
    byteOffset _DVDNavS_fields "logcb" = byteOffset _DVDNavS_fields_single "logcb" ∧
    byteOffset _DVDNavS_fields "cache" = byteOffset _DVDNavS_fields_single "cache" ∧
    byteOffset _DVDNavS_fields "err_str" = byteOffset _DVDNavS_fields_single "err_str" ∧
    structLayout _DVDNavS_fields = structLayout _DVDNavS_fields_single := by decide

end DVDRead
